import Mathlib

/-!
# simple-rpc: correlation and dispatch of `lib/client.js` and `lib/server.js`

A shallow embedding of the two endpoints of the repository.

* JavaScript values are the type `Value`; numbers are integers (fractions are not
  represented). The id counters are doubles that hold natural numbers: `increment`
  adds 1 below 2^53 and nothing from there on.
* A text frame is represented by what `JSON.parse` makes of it (`Text`), so
  `JSON.stringify` is the map from the object literal that the code builds to the
  frame the peer decodes.
* Objects used as dictionaries (`_registeredFunctions`, `_waiting`) are association
  lists of their own entries. A read `o[k]` goes through the prototype chain:
  `tableRead` and `readWaiting` find the own entry or else the property inherited from
  `Object.prototype`. The id of a decoded message is any JSON value; the keys written
  to `_waiting` are the ids that the counter gave out. Registered handlers are
  functions.
* A handler is a function from its positional arguments to the value it returns or
  the value it throws (an `async` handler that rejects counts as throwing).
* The runtime that the code relies on is explicit state: the list of armed timers,
  the log of continuation invocations (`settled`), the log of handler invocations
  (`invoked`) and, for the transport, the frames sent and the outcomes of the
  upcoming `send` operations.
-/

namespace SimpleRpc

/-! ## Values and frames -/

/-- JavaScript values that the endpoints handle. `error` is an `Error` object with
its message. -/
inductive Value where
  | undefined
  | null
  | bool (b : Bool)
  | num (n : Int)
  | str (s : String)
  | arr (items : List Value)
  | obj (fields : List (String × Value))
  | error (message : String)
deriving Repr

mutual
/-- Decidable equality of values. -/
def Value.decEq : (a b : Value) → Decidable (a = b)
  | .undefined, .undefined => isTrue rfl
  | .null, .null => isTrue rfl
  | .bool a, .bool b =>
    if h : a = b then isTrue (by rw [h]) else isFalse (by intro h2; cases h2; exact h rfl)
  | .num a, .num b =>
    if h : a = b then isTrue (by rw [h]) else isFalse (by intro h2; cases h2; exact h rfl)
  | .str a, .str b =>
    if h : a = b then isTrue (by rw [h]) else isFalse (by intro h2; cases h2; exact h rfl)
  | .error a, .error b =>
    if h : a = b then isTrue (by rw [h]) else isFalse (by intro h2; cases h2; exact h rfl)
  | .arr a, .arr b =>
    match Value.decEqItems a b with
    | isTrue h => isTrue (by rw [h])
    | isFalse h => isFalse (by intro h2; cases h2; exact h rfl)
  | .obj a, .obj b =>
    match Value.decEqFields a b with
    | isTrue h => isTrue (by rw [h])
    | isFalse h => isFalse (by intro h2; cases h2; exact h rfl)
  | .undefined, .null | .undefined, .bool _ | .undefined, .num _ | .undefined, .str _
  | .undefined, .arr _ | .undefined, .obj _ | .undefined, .error _ =>
    isFalse (by intro h; cases h)
  | .null, .undefined | .null, .bool _ | .null, .num _ | .null, .str _
  | .null, .arr _ | .null, .obj _ | .null, .error _ =>
    isFalse (by intro h; cases h)
  | .bool _, .undefined | .bool _, .null | .bool _, .num _ | .bool _, .str _
  | .bool _, .arr _ | .bool _, .obj _ | .bool _, .error _ =>
    isFalse (by intro h; cases h)
  | .num _, .undefined | .num _, .null | .num _, .bool _ | .num _, .str _
  | .num _, .arr _ | .num _, .obj _ | .num _, .error _ =>
    isFalse (by intro h; cases h)
  | .str _, .undefined | .str _, .null | .str _, .bool _ | .str _, .num _
  | .str _, .arr _ | .str _, .obj _ | .str _, .error _ =>
    isFalse (by intro h; cases h)
  | .arr _, .undefined | .arr _, .null | .arr _, .bool _ | .arr _, .num _
  | .arr _, .str _ | .arr _, .obj _ | .arr _, .error _ =>
    isFalse (by intro h; cases h)
  | .obj _, .undefined | .obj _, .null | .obj _, .bool _ | .obj _, .num _
  | .obj _, .str _ | .obj _, .arr _ | .obj _, .error _ =>
    isFalse (by intro h; cases h)
  | .error _, .undefined | .error _, .null | .error _, .bool _ | .error _, .num _
  | .error _, .str _ | .error _, .arr _ | .error _, .obj _ =>
    isFalse (by intro h; cases h)
/-- Decidable equality of lists of values. -/
def Value.decEqItems : (a b : List Value) → Decidable (a = b)
  | [], [] => isTrue rfl
  | [], _ :: _ => isFalse (by intro h; cases h)
  | _ :: _, [] => isFalse (by intro h; cases h)
  | x :: xs, y :: ys =>
    match Value.decEq x y, Value.decEqItems xs ys with
    | isTrue h1, isTrue h2 => isTrue (by rw [h1, h2])
    | isFalse h1, _ => isFalse (by intro h; cases h; exact h1 rfl)
    | _, isFalse h2 => isFalse (by intro h; cases h; exact h2 rfl)
/-- Decidable equality of field lists. -/
def Value.decEqFields : (a b : List (String × Value)) → Decidable (a = b)
  | [], [] => isTrue rfl
  | [], _ :: _ => isFalse (by intro h; cases h)
  | _ :: _, [] => isFalse (by intro h; cases h)
  | (k, x) :: xs, (l, y) :: ys =>
    if hk : k = l then
      match Value.decEq x y, Value.decEqFields xs ys with
      | isTrue h1, isTrue h2 => isTrue (by rw [hk, h1, h2])
      | isFalse h1, _ => isFalse (by intro h; cases h; exact h1 rfl)
      | _, isFalse h2 => isFalse (by intro h; cases h; exact h2 rfl)
    else isFalse (by intro h; cases h; exact hk rfl)
end

instance : DecidableEq Value := Value.decEq

/-- JavaScript truthiness, as tested by `if (x)`: `undefined`, `null`, `false`, `0`
and the empty string are falsy, every object (arrays and `Error` objects included)
is truthy. -/
def Value.truthy : Value → Bool
  | .undefined => false
  | .null => false
  | .bool b => b
  | .num n => n != 0
  | .str s => s != ""
  | .arr _ => true
  | .obj _ => true
  | .error _ => true

/-- A natural number as a JavaScript number. -/
instance : Coe Nat Value := ⟨fun n => .num (Int.ofNat n)⟩

/-- Numerals denote JavaScript numbers. -/
instance (n : Nat) : OfNat Value n := ⟨.num (Int.ofNat n)⟩

mutual
/-- The property key of a value used as `o[v]`: the string `String(v)`. -/
def Value.toKey : Value → String
  | .undefined => "undefined"
  | .null => "null"
  | .bool b => if b then "true" else "false"
  | .num n => toString n
  | .str s => s
  | .arr items => Value.joinKeys items
  | .obj _ => "[object Object]"
  | .error message => "Error: " ++ message
/-- The string `items.join(",")`, in which `null` and `undefined` elements are
empty. -/
def Value.joinKeys : List Value → String
  | [] => ""
  | [.null] => ""
  | [.undefined] => ""
  | [v] => v.toKey
  | .null :: rest => "," ++ Value.joinKeys rest
  | .undefined :: rest => "," ++ Value.joinKeys rest
  | v :: rest => v.toKey ++ "," ++ Value.joinKeys rest
end

/-- The natural number written by a list of decimal digits. -/
def digitsToNat (digits : List Char) : Nat :=
  digits.foldl (fun n c => 10 * n + (c.toNat - 48)) 0

/-- The natural number of which the string is the decimal form: "0", or digits that
do not start with 0. -/
def canonicalIndex (s : String) : Option Nat :=
  match s.data with
  | [] => none
  | [c] => if c.isDigit then some (digitsToNat [c]) else none
  | c :: rest =>
    if c.isDigit ∧ c ≠ '0' ∧ rest.all Char.isDigit then some (digitsToNat (c :: rest))
    else none

mutual
/-- The natural number `n`, if any, whose decimal form is the property key of the
value: `n` itself, the string of its digits, or a one-element array of such a
value. -/
def Value.toIndex : Value → Option Nat
  | .num (.ofNat n) => some n
  | .str s => canonicalIndex s
  | .arr items => Value.toIndexItems items
  | _ => none
/-- The natural number denoted by the single element of a one-element array. -/
def Value.toIndexItems : List Value → Option Nat
  | [v] => v.toIndex
  | _ => none
end

/-- The names of the properties that every object inherits from
`Object.prototype`. -/
def inheritedNames : List String :=
  ["constructor", "__defineGetter__", "__defineSetter__", "hasOwnProperty",
    "__lookupGetter__", "__lookupSetter__", "isPrototypeOf", "propertyIsEnumerable",
    "toString", "valueOf", "__proto__", "toLocaleString"]

mutual
/-- What `JSON.parse (JSON.stringify v)` yields for a value in a field position:
an `Error` object has no enumerable property and becomes the empty object, an
`undefined` array element becomes `null`, an `undefined` field is left out (which
reads back as `undefined`). -/
def Value.toJSON : Value → Value
  | .arr items => .arr (Value.toJSONItems items)
  | .obj fields => .obj (Value.toJSONFields fields)
  | .error _ => .obj []
  | v => v
/-- Array elements under `JSON.stringify`. -/
def Value.toJSONItems : List Value → List Value
  | [] => []
  | .undefined :: rest => .null :: Value.toJSONItems rest
  | v :: rest => v.toJSON :: Value.toJSONItems rest
/-- Object fields under `JSON.stringify`. -/
def Value.toJSONFields : List (String × Value) → List (String × Value)
  | [] => []
  | (_, .undefined) :: rest => Value.toJSONFields rest
  | (k, v) :: rest => (k, v.toJSON) :: Value.toJSONFields rest
end

/-- The five fields that both endpoints destructure from a decoded message and
write into an outgoing one: `{type, id, namespace, error, data}`. An absent field
is `none` (for `type`, `namespace`, `id`) or `Value.undefined` (for `data`,
`error`). A `type` that is not a string matches no `case` and is `none`; `ns` is
the field `namespace`; `id` is any JSON value. -/
structure Envelope where
  type : Option String
  ns : Option String
  id : Option Value
  data : Value
  error : Value
deriving DecidableEq, Repr

/-- The result of `JSON.parse` on a text that parses: `null`, a value without any of
the five fields (number, string, boolean, array), or an object. -/
inductive Parsed where
  | null
  | scalar
  | object (e : Envelope)
deriving DecidableEq, Repr

/-- A text frame, represented by what `JSON.parse` makes of it. -/
inductive Text where
  | invalid
  | json (p : Parsed)
deriving DecidableEq, Repr

/-- The decoder `JSON.parse`: throws a `SyntaxError` on a text that is not JSON. -/
def JSON.parse : Text → Except Value Parsed
  | .invalid => .error (.error "SyntaxError")
  | .json p => .ok p

/-- The encoder `JSON.stringify` applied to an object literal with the five fields. -/
def JSON.stringify (e : Envelope) : Text :=
  .json (.object { e with data := e.data.toJSON, error := e.error.toJSON })

/-- Destructuring `const {type, id, namespace, error, data} = message`: a `TypeError`
on `null`, all fields `undefined` on a value that is not an object. -/
def Parsed.destructure : Parsed → Except Value Envelope
  | .null => .error (.error "TypeError: Cannot destructure")
  | .scalar => .ok ⟨none, none, none, .undefined, .undefined⟩
  | .object e => .ok e

/-- The property read `msg.id`: a `TypeError` on `null`. -/
def Parsed.id : Parsed → Except Value (Option Value)
  | .null => .error (.error "TypeError: Cannot read properties of null")
  | .scalar => .ok none
  | .object e => .ok e.id

/-! ## Handlers and dictionaries -/

/-- A registered function: from the positional arguments to the returned value
(`Except.ok`) or the thrown value (`Except.error`). -/
abbrev Handler := List Value → Except Value Value

/-- The own entry of a dictionary under the key `k` (the reads `o[k]` of the code,
which also see inherited properties, are `tableRead` and `readWaiting`). -/
def Dict.get {κ α : Type} [BEq κ] (o : List (κ × α)) (k : κ) : Option α :=
  o.lookup k

/-- The statement `delete o[k]` for an own entry. -/
def Dict.delete {κ α : Type} [BEq κ] (o : List (κ × α)) (k : κ) : List (κ × α) :=
  o.filter (fun p => !(p.1 == k))

/-- The assignment `o[k] = v` (for the handler table and the key `"__proto__"`, see
`inheritedMember`). -/
def Dict.set {κ α : Type} [BEq κ] (o : List (κ × α)) (k : κ) (v : α) : List (κ × α) :=
  (k, v) :: Dict.delete o k

/-- The property key of the `namespace` field: `undefined` reads the key
`"undefined"`. -/
def propertyKey (ns : Option String) : String :=
  ns.getD "undefined"

/-- The `TypeError` of applying a value that is not a function, or a method of
`Function.prototype` to a receiver that is not a function. -/
def notCallable : Handler :=
  fun _ => .error (.error "TypeError: not a function")

/-- The function `Object`, which the name `constructor` reads: without argument, or
for `undefined` or `null`, a new empty object; for any other argument that argument
(for a primitive, a wrapper object that `JSON.stringify` writes as the primitive; the
wrapper itself is not represented). -/
def objectConstructor : Handler :=
  fun args =>
    match args.head? with
    | none => .ok (.obj [])
    | some .undefined => .ok (.obj [])
    | some .null => .ok (.obj [])
    | some v => .ok v

/-- The member of `Object.prototype` under a name, as a function of its arguments
for the receiver that the dispatch passes (the socket or the client). `toString` and
`toLocaleString` give `"[object Object]"`; `isPrototypeOf` is `false` for JSON
arguments; `__defineGetter__` and `__defineSetter__` throw, since no JSON argument is
a function; `__proto__` reads the prototype object, which is not a function. The
members that inspect the receiver are given for a receiver without the property asked
for (`hasOwnProperty`, `propertyIsEnumerable`: `false`; `__lookupGetter__`,
`__lookupSetter__`: `undefined`), and `valueOf`, which returns the receiver, for a
receiver that `JSON.stringify` cannot write. -/
def objectMember (name : String) : Option Handler :=
  if name = "constructor" then some objectConstructor
  else if name = "toString" ∨ name = "toLocaleString" then
    some (fun _ => .ok (.str "[object Object]"))
  else if name = "hasOwnProperty" ∨ name = "propertyIsEnumerable" ∨ name = "isPrototypeOf" then
    some (fun _ => .ok (.bool false))
  else if name = "__lookupGetter__" ∨ name = "__lookupSetter__" then
    some (fun _ => .ok .undefined)
  else if name = "__defineGetter__" ∨ name = "__defineSetter__" ∨ name = "__proto__" then
    some notCallable
  else if name = "valueOf" then
    some (fun _ => .error (.error "TypeError: Converting circular structure to JSON"))
  else none

/-- The names that a table reads through a function assigned as its prototype: the
function's own properties and the members of `Function.prototype`. -/
def functionNames : List String :=
  ["length", "name", "prototype", "arguments", "caller", "apply", "bind", "call",
    "constructor", "toString"]

/-- The property that a table without own entry for `key` inherits. The handler table
is created as `{}`, so it inherits the members of `Object.prototype`. The assignment
`table["__proto__"] = func` replaces that prototype by the function (kept in the list
under the key `"__proto__"`, which is never an own entry); the names of
`functionNames` are then read from the function and stand for members whose
application throws a `TypeError` (exact for `apply`, `bind`, `call` and `toString`,
whose receiver is not a function; the others are values that are not represented). -/
def inheritedMember (table : List (String × Handler)) (key : String) : Option Handler :=
  if (Dict.get table "__proto__").isSome ∧ key ∈ functionNames then some notCallable
  else objectMember key

/-- The read `table[key]` of the handler table: the own entry, or else the inherited
property. -/
def tableRead (table : List (String × Handler)) (key : String) : Option Handler :=
  (Dict.get table key).orElse (fun _ => inheritedMember table key)

/-- The own entries of the handler table. -/
def ownEntries (table : List (String × Handler)) : List (String × Handler) :=
  table.filter (fun p => !(p.1 == "__proto__"))

/-- The dispatch lookup `table[namespace] || table["*"]`. -/
def resolveHandler (table : List (String × Handler)) (key : String) : Option Handler :=
  (tableRead table key).orElse (fun _ => tableRead table "*")

/-- The key under which `resolveHandler` finds the function: the namespace itself
when the table reads something under it, `"*"` otherwise. -/
def resolvedKey (table : List (String × Handler)) (key : String) : String :=
  if (tableRead table key).isSome then key else "*"

/-- The length that a string denotes: its decimal digits, between white space and
after an optional `+`; the empty string and every string that is not a number count
as 0. The other numeric forms of JavaScript (fraction, exponent, hexadecimal) are not
represented. -/
def stringToLength (s : String) : Nat :=
  ((if s.trim.startsWith "+" then s.trim.drop 1 else s.trim).toNat?).getD 0

/-- The conversion `ToLength` of the value of a `length` property: a number as it is
(0 when negative), `true` as 1, a string or an array through its string, anything
else as 0. -/
def toLength : Value → Nat
  | .num n => n.toNat
  | .bool b => if b then 1 else 0
  | .str s => stringToLength s
  | .arr items => stringToLength (Value.joinKeys items)
  | _ => 0

/-- The array-like view `Function.prototype.apply` takes of an object: `length`
elements read at the keys `"0"`, `"1"`, ..., where `length` is the conversion of the
property `length` and 0 without one. -/
def arrayLike (fields : List (String × Value)) : List Value :=
  (List.range (toLength ((fields.lookup "length").getD .undefined))).map
    (fun i => (fields.lookup (toString i)).getD .undefined)

/-- The argument list of `func.apply(thisArg, data)`: none for `undefined` and
`null`, the elements of an array, the array-like view of an object, and a
`TypeError` for a boolean, a number or a string. -/
def applyArgs : Value → Except Value (List Value)
  | .undefined => .ok []
  | .null => .ok []
  | .arr items => .ok items
  | .obj fields => .ok (arrayLike fields)
  | .error _ => .ok []
  | _ => .error (.error "TypeError: CreateListFromArrayLike called on non-object")

/-- The message of the error thrown for a call that no handler serves. -/
def unregisteredNamespace (ns : Option String) : Value :=
  .error ("Call to unregistered namespace \"" ++ propertyKey ns ++ "\".")

/-- The message of the error a pending call is rejected with when its timer fires. -/
def timedOut (ns : Option String) : Value :=
  .error ("Call to \"" ++ propertyKey ns ++ "\" timed out.")

/-! ## Pending calls, timers, transport -/

/-- An entry `{res, rej, timeout}` of `_waiting`: `promise` identifies the promise
whose two continuations are stored, `timeout` is the timer handle. -/
structure Pending where
  promise : Nat
  timeout : Nat
deriving DecidableEq, Repr

/-- One invocation of a continuation: `res(v)` or `rej(e)`. -/
inductive Settlement where
  | resolved (v : Value)
  | rejected (e : Value)
deriving DecidableEq, Repr

/-- An armed timer: its handle and the variables `id` and `namespace` that the
callback passed to `setTimeout` closes over. -/
structure Timer where
  handle : Nat
  id : Nat
  ns : Option String
deriving DecidableEq, Repr

/-- The function `clearTimeout`. -/
def clearTimeout (timers : List Timer) (handle : Nat) : List Timer :=
  timers.filter (fun t => !(t.handle == handle))

/-- What the read `this._waiting[id]` finds: the entry written under the key of the
id, a property that the object inherits (a truthy value without `res`, `rej` or
`timeout`), or nothing. -/
inductive Waiting where
  | entry (key : Nat) (response : Pending)
  | inherited
  | nothing
deriving DecidableEq, Repr

/-- The read `this._waiting[id]`, for the `id` of a decoded message (`none` reads
the key `"undefined"`). The keys written are the decimal forms of the ids that the
counter gave out. -/
def readWaiting (waiting : List (Nat × Pending)) (id : Option Value) : Waiting :=
  match id with
  | none => .nothing
  | some v =>
    match v.toIndex with
    | some key =>
      match Dict.get waiting key with
      | some response => .entry key response
      | none => .nothing
    | none => if v.toKey ∈ inheritedNames then .inherited else .nothing

/-- The `TypeError` of calling `res` or `rej` read from a value that has neither. -/
def notAFunction : Value :=
  .error "TypeError: res is not a function"

/-- How an `async` function ends: it returns `undefined`, it is suspended on
`await promise`, or it throws. -/
inductive Outcome where
  | returned
  | awaiting (promise : Nat)
  | threw (e : Value)
deriving DecidableEq, Repr

/-- The transport under an endpoint: the frames it accepted and the outcomes of the
upcoming `send` operations (`none`: accepted, `some e`: fails with `e`; accepted
once the list is used up). -/
structure Transport where
  sent : List Text
  outcomes : List (Option Value)
deriving DecidableEq, Repr

/-- Whether the next `send` is accepted. -/
def Transport.accepts (t : Transport) : Bool :=
  match t.outcomes with
  | some _ :: _ => false
  | _ => true

/-- The operation `send(text)` of the transport. -/
def Transport.send (t : Transport) (text : Text) : Except Value Unit × Transport :=
  match t.outcomes with
  | [] => (.ok (), { t with sent := t.sent ++ [text] })
  | none :: rest => (.ok (), { sent := t.sent ++ [text], outcomes := rest })
  | some e :: rest => (.error e, { t with outcomes := rest })

/-! ## The server (`lib/server.js`) -/

/-- A connected socket as the server uses it: the counter `_messageId` set by
`initSocket` and the transport behind `socket.send`. -/
structure Socket where
  _messageId : Nat
  transport : Transport
deriving DecidableEq, Repr

/-- The first integer that a double cannot tell from its successor: 2^53. -/
def maxExactInteger : Nat := 9007199254740992

/-- The value of a counter after the postfix increment `n++`, on a double that holds
a natural number: the next integer, until 2^53, where adding 1 rounds back to 2^53. -/
def increment (n : Nat) : Nat :=
  if n < maxExactInteger then n + 1 else n

/-- The method `socket.messageId = () => socket._messageId++`. -/
def Socket.messageId (socket : Socket) : Nat × Socket :=
  (socket._messageId, { socket with _messageId := increment socket._messageId })

/-- The promisified `socket.send`. -/
def Socket.send (socket : Socket) (text : Text) : Except Value Unit × Socket :=
  ((socket.transport.send text).1, { socket with transport := (socket.transport.send text).2 })

/-- The state of a `Server`: the fields `_registeredFunctions` and `_waiting`, and
the runtime state its methods act on (armed timers, the counters that name fresh
timers and promises, the continuation invocations and the handler invocations, each
in order of occurrence). -/
structure Server where
  _registeredFunctions : List (String × Handler)
  _waiting : List (Nat × Pending)
  timers : List Timer
  nextTimer : Nat
  nextPromise : Nat
  settled : List (Nat × Settlement)
  invoked : List (String × List Value)

/-- The method `register(namespace, func)`. The assignment to `"__proto__"` runs
the inherited setter: the function becomes the prototype of the table (see
`inheritedMember`) and no own entry is created. -/
def Server.register (srv : Server) (ns : String) (func : Handler) : Server :=
  { srv with _registeredFunctions := Dict.set srv._registeredFunctions ns func }

/-- The method `unregister(namespace)`: `delete` removes an own entry, and
`"__proto__"` is never one. -/
def Server.unregister (srv : Server) (ns : String) : Server :=
  if ns = "__proto__" then srv
  else { srv with _registeredFunctions := Dict.delete srv._registeredFunctions ns }

/-- The properties collected by `...rest` in the parameter of `sendSocket`: `id` is
`none` when the caller passed no `id` property, `some v` when it passed `id: v`. -/
structure Rest where
  id : Option (Option Value)
  data : Value
  error : Value
deriving DecidableEq, Repr

/-- The callback that `sendSocket` passes to `setTimeout`, for the captured `id`
and `namespace`: rejects whatever entry `_waiting[id]` holds when it runs, and
deletes it. -/
def Server.timeoutCallback (srv : Server) (id : Nat) (ns : Option String) : Server :=
  match Dict.get srv._waiting id with
  | some entry =>
    { srv with
      settled := srv.settled ++ [(entry.promise, .rejected (timedOut ns))]
      _waiting := Dict.delete srv._waiting id }
  | none => srv

/-- The timer `t` expires: it is armed no longer and its callback runs. -/
def Server.expire (srv : Server) (t : Timer) : Server :=
  Server.timeoutCallback { srv with timers := clearTimeout srv.timers t.handle } t.id t.ns

/-- The runtime fires the timer `handle`, if it is still armed. -/
def Server.fire (srv : Server) (handle : Nat) : Server :=
  match srv.timers.find? (fun t => t.handle == handle) with
  | some t => srv.expire t
  | none => srv

/-- The method `sendSocket({type, socket, namespace, response, ...rest})`, with
every parameter given (the defaults `type = "c"` and `response = true` are applied
by the callers below). -/
def Server.sendSocket (srv : Server) (socket : Socket) (type : String) (ns : Option String)
    (response : Bool) (rest : Rest) : Outcome × Server × Socket :=
  let id := socket.messageId.1
  let socket1 := socket.messageId.2
  let frame :=
    JSON.stringify ⟨some type, ns, rest.id.getD (some (id : Nat)), rest.data, rest.error⟩
  match socket1.send frame with
  | (.error e, socket2) => (.threw e, srv, socket2)
  | (.ok _, socket2) =>
    if response then
      (.awaiting srv.nextPromise,
        { srv with
          _waiting := Dict.set srv._waiting id ⟨srv.nextPromise, srv.nextTimer⟩
          timers := srv.timers ++ [⟨srv.nextTimer, id, ns⟩]
          nextTimer := srv.nextTimer + 1
          nextPromise := srv.nextPromise + 1 },
        socket2)
    else (.returned, srv, socket2)

/-- The method `initSocket(socket)`, as far as the state goes: the counter starts
at 0. -/
def Server.initSocket (socket : Socket) : Socket :=
  { socket with _messageId := 0 }

/-- The function `socket.call(namespace, ...data)` installed by `initSocket`. -/
def Socket.call (socket : Socket) (srv : Server) (ns : String) (data : List Value) :
    Outcome × Server × Socket :=
  srv.sendSocket socket "c" (some ns) true ⟨none, .arr data, .undefined⟩

/-- The function `socket.signal(namespace, ...data)` installed by `initSocket`. -/
def Socket.signal (socket : Socket) (srv : Server) (ns : String) (data : List Value) :
    Outcome × Server × Socket :=
  srv.sendSocket socket "c" (some ns) false ⟨none, .arr data, .undefined⟩

/-- The method `processMessage(socket, message)`: the value it returns or the value
it throws, and the server afterwards. For a response, an inherited property read
as the entry has no `res` and no `rej`, so settling throws a `TypeError` (after
`clearTimeout(undefined)` and a `delete` that remove nothing). -/
def Server.processMessage (srv : Server) (_socket : Socket) (message : Parsed) :
    Except Value Value × Server :=
  match message.destructure with
  | .error e => (.error e, srv)
  | .ok m =>
    if m.type = some "c" then
      match resolveHandler srv._registeredFunctions (propertyKey m.ns) with
      | none => (.error (unregisteredNamespace m.ns), srv)
      | some func =>
        match applyArgs m.data with
        | .error e => (.error e, srv)
        | .ok args =>
          (func args,
            { srv with
              invoked := srv.invoked ++
                [(resolvedKey srv._registeredFunctions (propertyKey m.ns), args)] })
    else if m.type = some "r" then
      match readWaiting srv._waiting m.id with
      | .nothing => (.ok .undefined, srv)
      | .inherited => (.error notAFunction, srv)
      | .entry key response =>
        (.ok .undefined,
          { srv with
            timers := clearTimeout srv.timers response.timeout
            _waiting := Dict.delete srv._waiting key
            settled := srv.settled ++
              [(response.promise,
                if m.error.truthy then .rejected m.error else .resolved m.data)] })
    else (.ok .undefined, srv)

/-- The method `handleMessage(socket, message)`. The inner `try` is `attempt`; its
`catch` reports through `onError` (a console line) and sends the failure; the outer
`catch` (a console line) takes whatever is thrown anywhere else. -/
def Server.handleMessage (srv : Server) (socket : Socket) (message : Text) :
    Outcome × Server × Socket :=
  match JSON.parse message with
  | .error _ => (.returned, srv, socket)
  | .ok msg =>
    let attempt : Except Value Unit × Server × Socket :=
      match srv.processMessage socket msg with
      | (.error e, srv1) => (.error e, srv1, socket)
      | (.ok data, srv1) =>
        if data.truthy then
          match msg.id with
          | .error e => (.error e, srv1, socket)
          | .ok id =>
            match srv1.sendSocket socket "r" none false ⟨some id, data, .undefined⟩ with
            | (.threw e, srv2, socket2) => (.error e, srv2, socket2)
            | (_, srv2, socket2) => (.ok (), srv2, socket2)
        else (.ok (), srv1, socket)
    match attempt with
    | (.ok _, srv1, socket1) => (.returned, srv1, socket1)
    | (.error error, srv1, socket1) =>
      match msg.id with
      | .error _ => (.returned, srv1, socket1)
      | .ok id =>
        ((.returned : Outcome),
          (srv1.sendSocket socket1 "r" none false ⟨some id, .undefined, error⟩).2)

/-! ## The client (`lib/client.js`) -/

/-- The state of a `Client`: the fields `_registeredFunctions`, `_waiting` and
`_messageId`, the transport behind `super.send`, and the same runtime state as for
the server. -/
structure Client where
  _registeredFunctions : List (String × Handler)
  _waiting : List (Nat × Pending)
  _messageId : Nat
  transport : Transport
  timers : List Timer
  nextTimer : Nat
  nextPromise : Nat
  settled : List (Nat × Settlement)
  invoked : List (String × List Value)

/-- The method `messageId()`: `return this._messageId++`. -/
def Client.messageId (c : Client) : Nat × Client :=
  (c._messageId, { c with _messageId := increment c._messageId })

/-- The method `register(namespace, func)`. The assignment to `"__proto__"` runs
the inherited setter: the function becomes the prototype of the table (see
`inheritedMember`) and no own entry is created. -/
def Client.register (c : Client) (ns : String) (func : Handler) : Client :=
  { c with _registeredFunctions := Dict.set c._registeredFunctions ns func }

/-- The method `unregister(namespace)`: `delete` removes an own entry, and
`"__proto__"` is never one. -/
def Client.unregister (c : Client) (ns : String) : Client :=
  if ns = "__proto__" then c
  else { c with _registeredFunctions := Dict.delete c._registeredFunctions ns }

/-- The callback that `sendMessage` passes to `setTimeout`, for the captured `id`
and `namespace`. -/
def Client.timeoutCallback (c : Client) (id : Nat) (ns : Option String) : Client :=
  match Dict.get c._waiting id with
  | some entry =>
    { c with
      settled := c.settled ++ [(entry.promise, .rejected (timedOut ns))]
      _waiting := Dict.delete c._waiting id }
  | none => c

/-- The timer `t` expires: it is armed no longer and its callback runs. -/
def Client.expire (c : Client) (t : Timer) : Client :=
  Client.timeoutCallback { c with timers := clearTimeout c.timers t.handle } t.id t.ns

/-- The runtime fires the timer `handle`, if it is still armed. -/
def Client.fire (c : Client) (handle : Nat) : Client :=
  match c.timers.find? (fun t => t.handle == handle) with
  | some t => c.expire t
  | none => c

/-- The key of `_waiting` that `sendMessage` writes: the id taken from the counter
when the caller passed none, the natural number that the passed id denotes otherwise
(no caller passes an id together with `response`, and an entry under another key is
not represented). -/
def Client.entryKey (c : Client) (id : Option Value) : Option Nat :=
  match id with
  | none => some c._messageId
  | some v => v.toIndex

/-- The method `sendMessage({id, type, namespace, data, response})`: `id` is `none`
when the caller passed none (or `undefined`), and then the default
`this.messageId()` is evaluated. -/
def Client.sendMessage (c : Client) (id : Option Value) (type : String)
    (ns : Option String) (data : Value) (response : Bool) : Outcome × Client :=
  let id1 : Value := id.getD (c.messageId.1 : Nat)
  let c1 := if id.isSome then c else c.messageId.2
  match c1.transport.send (JSON.stringify ⟨some type, ns, some id1, data, .undefined⟩) with
  | (.error e, t) => (.threw e, { c1 with transport := t })
  | (.ok _, t) =>
    if response then
      match c.entryKey id with
      | some key =>
        (.awaiting c1.nextPromise,
          { c1 with
            transport := t
            _waiting := Dict.set c1._waiting key ⟨c1.nextPromise, c1.nextTimer⟩
            timers := c1.timers ++ [⟨c1.nextTimer, key, ns⟩]
            nextTimer := c1.nextTimer + 1
            nextPromise := c1.nextPromise + 1 })
      | none =>
        (.awaiting c1.nextPromise,
          { c1 with transport := t, nextPromise := c1.nextPromise + 1 })
    else (.returned, { c1 with transport := t })

/-- The method `call(namespace, ...data)`. -/
def Client.call (c : Client) (ns : String) (data : List Value) : Outcome × Client :=
  c.sendMessage none "c" (some ns) (.arr data) true

/-- The method `signal(namespace, ...data)`. -/
def Client.signal (c : Client) (ns : String) (data : List Value) : Outcome × Client :=
  c.sendMessage none "c" (some ns) (.arr data) false

/-- The method `handleMessage(message)`. When `JSON.parse` throws, the error is
logged and the message event itself is destructured: its `type` is `"message"`,
which matches no `case`. Nothing is caught after that. -/
def Client.handleMessage (c : Client) (message : Text) : Outcome × Client :=
  match JSON.parse message with
  | .error _ => (.returned, c)
  | .ok msg =>
    match msg.destructure with
    | .error e => (.threw e, c)
    | .ok m =>
      if m.type = some "c" then
        match resolveHandler c._registeredFunctions (propertyKey m.ns) with
        | none => (.threw (unregisteredNamespace m.ns), c)
        | some _ =>
          match tableRead c._registeredFunctions (propertyKey m.ns) with
          | none => (.threw (.error "TypeError: Cannot read properties of undefined"), c)
          | some exact =>
            match applyArgs m.data with
            | .error e => (.threw e, c)
            | .ok args =>
              match exact args with
              | .error e =>
                (.threw e, { c with invoked := c.invoked ++ [(propertyKey m.ns, args)] })
              | .ok result =>
                Client.sendMessage { c with invoked := c.invoked ++ [(propertyKey m.ns, args)] }
                  m.id "r" none result false
      else if m.type = some "r" then
        match readWaiting c._waiting m.id with
        | .nothing => (.returned, c)
        | .inherited => (.threw notAFunction, c)
        | .entry key response =>
          (.returned,
            { c with
              timers := clearTimeout c.timers response.timeout
              _waiting := Dict.delete c._waiting key
              settled := c.settled ++
                [(response.promise,
                  if m.error.truthy then .rejected m.error else .resolved m.data)] })
      else (.returned, c)

/-! ## What follows a call on the client -/

/-- An event that concerns one pending call of a client: a response frame carrying
the id of the call (with any other fields) arrives, or the timer of the call
expires. -/
inductive Client.Event where
  | response (ns : Option String) (error data : Value)
  | expiry
deriving DecidableEq, Repr

/-- The client after an event for the call with id `id` and timer `t`. -/
def Client.step (id : Nat) (t : Timer) (c : Client) : Client.Event → Client
  | .response ns error data =>
    (c.handleMessage (.json (.object ⟨some "r", ns, some id, data, error⟩))).2
  | .expiry => c.expire t

/-- The continuation invocation that an event asks for: `rej(error)` for a response
with a truthy `error`, `res(data)` for any other response, `rej` with the time-out
error for the timer. -/
def Client.Event.settlement (callNs : Option String) : Client.Event → Settlement
  | .response _ error data => if error.truthy then .rejected error else .resolved data
  | .expiry => .rejected (timedOut callNs)

/-- A client that has done nothing yet, with one handler table. -/
def Client.fresh (table : List (String × Handler)) : Client :=
  { _registeredFunctions := table, _waiting := [], _messageId := 0,
    transport := ⟨[], []⟩, timers := [], nextTimer := 0, nextPromise := 0,
    settled := [], invoked := [] }

/-- A server that has done nothing yet, with one handler table. -/
def Server.fresh (table : List (String × Handler)) : Server :=
  { _registeredFunctions := table, _waiting := [], timers := [], nextTimer := 0,
    nextPromise := 0, settled := [], invoked := [] }

/-- A socket right after `initSocket`, on a transport that accepts every frame. -/
def Socket.fresh : Socket :=
  Server.initSocket ⟨0, ⟨[], []⟩⟩

/-- A call frame as it arrives: `{"type":"c","namespace":ns,"id":id,"data":data}`. -/
def callFrame (id : Nat) (ns : String) (data : List Value) : Text :=
  .json (.object ⟨some "c", some ns, some id, .arr data, .undefined⟩)

/-- A response frame as it arrives: `{"type":"r","id":id,"data":data}`. -/
def responseFrame (id : Nat) (data : Value) : Text :=
  .json (.object ⟨some "r", none, some id, data, .undefined⟩)

/-- A handler that returns `v` whatever its arguments. -/
def constant (v : Value) : Handler :=
  fun _ => .ok v

/-- A handler that throws `e` whatever its arguments. -/
def throwing (e : Value) : Handler :=
  fun _ => .error e

/-- The handler `(ns, ...a) => ns`: it returns its first positional argument
(`undefined` when there is none). -/
def firstArgument : Handler :=
  fun args => .ok (args.headD .undefined)

/-- Two sockets `a` and `b`, each right after `initSocket`, on one server: `a` calls
`f`, then `b` calls `g` while the call of `a` is pending. The components are the
outcome of the call on `a`, the outcome of the call on `b`, the server after both,
and the sockets `a` and `b` after their calls. -/
def twoPendingCalls : Outcome × Outcome × Server × Socket × Socket :=
  ((Socket.fresh.call (Server.fresh []) "f" []).1,
    (Socket.fresh.call (Socket.fresh.call (Server.fresh []) "f" []).2.1 "g" []).1,
    (Socket.fresh.call (Socket.fresh.call (Server.fresh []) "f" []).2.1 "g" []).2.1,
    (Socket.fresh.call (Server.fresh []) "f" []).2.2,
    (Socket.fresh.call (Socket.fresh.call (Server.fresh []) "f" []).2.1 "g" []).2.2)

/-- A server whose handler `f` returns `v` handles the call frame
`{"type":"c","namespace":"f","id":7,"data":[]}` on a fresh socket: the socket
afterwards and the handler invocations. -/
def falsyResultRun (v : Value) : Socket × List (String × List Value) :=
  (((Server.fresh [("f", constant v)]).handleMessage Socket.fresh (callFrame 7 "f" [])).2.2,
    ((Server.fresh [("f", constant v)]).handleMessage Socket.fresh
      (callFrame 7 "f" [])).2.1.invoked)

/-- A client with one pending call: a fresh client after `call("f")`, which has
the id 0, the promise 0 and the timer 0. -/
def Client.pendingCall : Client :=
  ((Client.fresh []).call "f" []).2

/-- A server and a socket with one pending call: a fresh socket after
`socket.call("f")` on a fresh server, which has the id 0, the promise 0 and the
timer 0. -/
def Server.pendingCall : Server × Socket :=
  (Socket.fresh.call (Server.fresh []) "f" []).2

/-- A response frame with an `error` field as it arrives:
`{"type":"r","id":id,"error":error}`. -/
def errorFrame (id : Nat) (error : Value) : Text :=
  .json (.object ⟨some "r", none, some id, .undefined, error⟩)

/-- The error of a transport whose connection is closed. -/
def notOpen : Value :=
  .error "WebSocket is not open"

/-- A fresh client on a transport whose next `send` fails. -/
def Client.disconnected : Client :=
  { Client.fresh [] with transport := ⟨[], [some notOpen]⟩ }

/-- A socket right after `initSocket` whose next `send` fails. -/
def Socket.disconnected : Socket :=
  Server.initSocket ⟨0, ⟨[], [some notOpen]⟩⟩

/-- A call frame without the field `namespace`, as it arrives:
`{"type":"c","id":id,"data":data}`. -/
def namelessCallFrame (id : Nat) (data : List Value) : Text :=
  .json (.object ⟨some "c", none, some id, .arr data, .undefined⟩)

/-- The handler that returns its single argument, `(x) => x`. -/
def echo : Handler :=
  fun args => .ok (args.headD .undefined)

mutual
/-- The values that JSON represents: `null`, booleans, numbers, strings, and arrays
and string-keyed objects of such values (no `undefined`, no `Error` object). -/
def Value.isJSON : Value → Bool
  | .undefined => false
  | .null => true
  | .bool _ => true
  | .num _ => true
  | .str _ => true
  | .arr items => Value.isJSONItems items
  | .obj fields => Value.isJSONFields fields
  | .error _ => false
/-- Every element is a JSON value. -/
def Value.isJSONItems : List Value → Bool
  | [] => true
  | v :: rest => v.isJSON && Value.isJSONItems rest
/-- Every field holds a JSON value. -/
def Value.isJSONFields : List (String × Value) → Bool
  | [] => true
  | (_, v) :: rest => v.isJSON && Value.isJSONFields rest
end

/-- A call frame without the field `id`, as it arrives:
`{"type":"c","namespace":ns,"data":data}`. -/
def idlessCallFrame (ns : String) (data : List Value) : Text :=
  .json (.object ⟨some "c", some ns, none, .arr data, .undefined⟩)

/-- What happens to a client, one operation at a time: the application calls
`call`, `signal`, `register` or `unregister`, the transport delivers a frame to
`handleMessage`, or a timer expires. -/
inductive Client.Op where
  | call (ns : String) (data : List Value)
  | signal (ns : String) (data : List Value)
  | register (ns : String) (func : Handler)
  | unregister (ns : String)
  | message (text : Text)
  | expire (t : Timer)

/-- The client after an operation. -/
def Client.apply (c : Client) : Client.Op → Client
  | .call ns data => (c.call ns data).2
  | .signal ns data => (c.signal ns data).2
  | .register ns func => c.register ns func
  | .unregister ns => c.unregister ns
  | .message text => (c.handleMessage text).2
  | .expire t => c.expire t

/-- The client after a list of operations. -/
def Client.run (c : Client) (ops : List Client.Op) : Client :=
  ops.foldl Client.apply c

/-- Whether the operation is a `call` or a `signal`. -/
def Client.Op.allocates : Client.Op → Bool
  | .call _ _ => true
  | .signal _ _ => true
  | _ => false

/-- The ids that the `call` and `signal` operations of a list of operations take
from `messageId()`, in order of issue. -/
def Client.allocated : Client → List Client.Op → List Nat
  | _, [] => []
  | c, op :: ops =>
    if op.allocates then c.messageId.1 :: Client.allocated (c.apply op) ops
    else Client.allocated (c.apply op) ops

/-- Whether the operation is anything but the delivery of a call envelope that has
no `id`. -/
def Client.Op.carriesId : Client.Op → Bool
  | .message (.json (.object m)) => !(m.type == some "c" && m.id.isNone)
  | _ => true

/-- The id that a frame of type "c" carries. -/
def Text.callId : Text → Option Value
  | .json (.object e) => if e.type = some "c" then e.id else none
  | _ => none

/-- The ids carried by the call frames among the frames sent, in the order in which
they were sent. -/
def callIds (sent : List Text) : List Value :=
  sent.filterMap Text.callId

/-- A client whose counter has reached 2^53. -/
def Client.saturated : Client :=
  { Client.fresh [] with _messageId := maxExactInteger }

/-- A client that has done nothing yet, on a transport with the given outcomes of
its upcoming `send` operations. -/
def Client.connected (table : List (String × Handler)) (outcomes : List (Option Value)) :
    Client :=
  { Client.fresh table with transport := ⟨[], outcomes⟩ }

/-! ## Lemmas on dictionaries and timers -/

theorem Dict.get_set_self {κ α : Type} [BEq κ] [LawfulBEq κ] (o : List (κ × α)) (k : κ)
    (v : α) : Dict.get (Dict.set o k v) k = some v := by
  simp [Dict.get, Dict.set, List.lookup]

theorem Dict.get_delete_self {κ α : Type} [BEq κ] [LawfulBEq κ] (o : List (κ × α)) (k : κ) :
    Dict.get (Dict.delete o k) k = none := by
  induction o with
  | nil => rfl
  | cons p rest ih =>
    obtain ⟨a, b⟩ := p
    by_cases h : a = k
    · subst h
      simpa [Dict.get, Dict.delete, List.filter] using ih
    · have hne : (a == k) = false := by simpa using h
      have hne2 : (k == a) = false := by simpa using fun h2 : k = a => h h2.symm
      simpa [Dict.get, Dict.delete, List.filter, hne, List.lookup, hne2] using ih

theorem Dict.delete_of_get_none {κ α : Type} [BEq κ] [LawfulBEq κ] (o : List (κ × α)) (k : κ)
    (h : Dict.get o k = none) : Dict.delete o k = o := by
  induction o with
  | nil => rfl
  | cons p rest ih =>
    obtain ⟨a, b⟩ := p
    by_cases hak : k = a
    · subst hak
      simp [Dict.get, List.lookup] at h
    · have hne2 : (k == a) = false := by simpa using hak
      have hne : (a == k) = false := by simpa using fun h2 : a = k => hak h2.symm
      simp only [Dict.get, List.lookup, hne2] at h
      have := ih h
      simp only [Dict.delete] at this ⊢
      simp [List.filter, hne, this]

theorem Value.toIndex_ofNat (n : Nat) : Value.toIndex (.num (n : Int)) = some n := by
  show Value.toIndex (.num (Int.ofNat n)) = some n
  simp only [Value.toIndex]

theorem readWaiting_ofNat (waiting : List (Nat × Pending)) (n : Nat) :
    readWaiting waiting (some (.num (n : Int))) =
      match Dict.get waiting n with
      | some response => .entry n response
      | none => .nothing := by
  simp only [readWaiting, Value.toIndex_ofNat]

theorem tableRead_of_get (table : List (String × Handler)) (key : String) (func : Handler)
    (h : Dict.get table key = some func) : tableRead table key = some func := by
  simp [tableRead, h]

theorem tableRead_wildcard (table : List (String × Handler)) :
    tableRead table "*" = Dict.get table "*" := by
  cases h : Dict.get table "*" with
  | some f => simp [tableRead, h]
  | none =>
    have h1 : objectMember "*" = none := by simp [objectMember]
    have h2 : "*" ∉ functionNames := by decide
    simp [tableRead, h, inheritedMember, h1, h2]

theorem clearTimeout_idem (timers : List Timer) (handle : Nat) :
    clearTimeout (clearTimeout timers handle) handle = clearTimeout timers handle := by
  simp [clearTimeout, List.filter_filter]

theorem clearTimeout_append_self (timers : List Timer) (handle id : Nat) (ns : Option String) :
    clearTimeout (timers ++ [⟨handle, id, ns⟩]) handle = clearTimeout timers handle := by
  simp [clearTimeout, List.filter_append, List.filter]

/-! ## Settlement of a call on the client -/

theorem Client.call_eq (c : Client) (ns : String) (data : List Value)
    (hsend : c.transport.accepts = true) :
    c.call ns data =
      (.awaiting c.nextPromise,
        { c with
          _messageId := increment c._messageId
          transport := ⟨c.transport.sent ++
            [JSON.stringify ⟨some "c", some ns, some c._messageId, .arr data, .undefined⟩],
            c.transport.outcomes.tail⟩
          _waiting := Dict.set c._waiting c._messageId ⟨c.nextPromise, c.nextTimer⟩
          timers := c.timers ++ [⟨c.nextTimer, c._messageId, some ns⟩]
          nextTimer := c.nextTimer + 1
          nextPromise := c.nextPromise + 1 }) := by
  obtain ⟨rf, w, mid, ⟨sent, outcomes⟩, tm, nt, np, st, inv⟩ := c
  match outcomes, hsend with
  | [], _ =>
    simp [Client.call, Client.sendMessage, Client.messageId, Transport.send, Client.entryKey]
  | none :: rest, _ =>
    simp [Client.call, Client.sendMessage, Client.messageId, Transport.send, Client.entryKey]
  | some e :: rest, h => simp [Transport.accepts] at h

theorem Client.step_first (c : Client) (id : Nat) (t : Timer) (entry : Pending)
    (hentry : Dict.get c._waiting id = some entry) (ht : t.id = id)
    (hh : entry.timeout = t.handle) (ev : Client.Event) :
    Client.step id t c ev =
      { c with
        timers := clearTimeout c.timers t.handle
        _waiting := Dict.delete c._waiting id
        settled := c.settled ++ [(entry.promise, ev.settlement t.ns)] } := by
  cases ev with
  | response ns error data =>
    simp [Client.step, Client.handleMessage, JSON.parse, Parsed.destructure,
      readWaiting_ofNat, hentry, hh, Client.Event.settlement]
  | expiry =>
    simp [Client.step, Client.expire, Client.timeoutCallback, ht, hentry,
      Client.Event.settlement]

theorem Client.step_idle (c : Client) (id : Nat) (t : Timer)
    (hentry : Dict.get c._waiting id = none) (ht : t.id = id)
    (hcl : clearTimeout c.timers t.handle = c.timers) (ev : Client.Event) :
    Client.step id t c ev = c := by
  cases ev with
  | response ns error data =>
    simp [Client.step, Client.handleMessage, JSON.parse, Parsed.destructure,
      readWaiting_ofNat, hentry]
  | expiry =>
    simp [Client.step, Client.expire, Client.timeoutCallback, ht, hentry, hcl]

theorem Client.steps_idle (c : Client) (id : Nat) (t : Timer)
    (hentry : Dict.get c._waiting id = none) (ht : t.id = id)
    (hcl : clearTimeout c.timers t.handle = c.timers) (evs : List Client.Event) :
    evs.foldl (Client.step id t) c = c := by
  induction evs with
  | nil => rfl
  | cons ev rest ih => simpa [List.foldl, Client.step_idle c id t hentry ht hcl ev] using ih

/-- C1. On a client whose transport accepts the frame, `call` leaves an entry for the
id it issued, arms the timer of the call and invokes no continuation. Then, for every first event for that id (a
response frame with that id, or the expiry of the timer of the call) and every list
of later such events: the first event invokes exactly one continuation of the call
(the one that event asks for) and removes the entry, and the later events change
nothing at all, so they invoke no continuation and leave `_waiting` as it is. -/
theorem Client.call_settles_exactly_once (c : Client) (ns : String) (data : List Value)
    (first : Client.Event) (later : List Client.Event)
    (hsend : c.transport.accepts = true) :
    (c.call ns data).1 = .awaiting c.nextPromise ∧
    Dict.get (c.call ns data).2._waiting c._messageId = some ⟨c.nextPromise, c.nextTimer⟩ ∧
    (c.call ns data).2.settled = c.settled ∧
    (⟨c.nextTimer, c._messageId, some ns⟩ : Timer) ∈ (c.call ns data).2.timers ∧
    (Client.step c._messageId ⟨c.nextTimer, c._messageId, some ns⟩ (c.call ns data).2
        first).settled
      = c.settled ++ [(c.nextPromise, first.settlement (some ns))] ∧
    Dict.get (Client.step c._messageId ⟨c.nextTimer, c._messageId, some ns⟩
        (c.call ns data).2 first)._waiting c._messageId = none ∧
    later.foldl (Client.step c._messageId ⟨c.nextTimer, c._messageId, some ns⟩)
        (Client.step c._messageId ⟨c.nextTimer, c._messageId, some ns⟩ (c.call ns data).2
          first)
      = Client.step c._messageId ⟨c.nextTimer, c._messageId, some ns⟩ (c.call ns data).2
          first := by
  have hcall := Client.call_eq c ns data hsend
  have hget : Dict.get (c.call ns data).2._waiting c._messageId
      = some ⟨c.nextPromise, c.nextTimer⟩ := by
    rw [hcall]; exact Dict.get_set_self _ _ _
  have hstep := Client.step_first (c.call ns data).2 c._messageId
    ⟨c.nextTimer, c._messageId, some ns⟩ ⟨c.nextPromise, c.nextTimer⟩ hget rfl rfl first
  refine ⟨by rw [hcall], hget, by rw [hcall], by rw [hcall]; simp, ?_, ?_, ?_⟩
  · rw [hstep, hcall]
  · rw [hstep]; exact Dict.get_delete_self _ _
  · apply Client.steps_idle
    · rw [hstep]; exact Dict.get_delete_self _ _
    · rfl
    · rw [hstep]; exact clearTimeout_idem _ _

/-- Witness of C1 on a fresh client: a call of `echo`, answered first by a response
and then by the timer and by a second response. -/
theorem Client.call_settles_exactly_once_witness :
    (Client.fresh []).transport.accepts = true ∧
    (Client.step 0 ⟨0, 0, some "echo"⟩ ((Client.fresh []).call "echo" [.num 42]).2
        (.response none .undefined (.num 42))).settled
      = [(0, .resolved (.num 42))] ∧
    [Client.Event.expiry, .response none .undefined (.num 7)].foldl
        (Client.step 0 ⟨0, 0, some "echo"⟩)
        (Client.step 0 ⟨0, 0, some "echo"⟩ ((Client.fresh []).call "echo" [.num 42]).2
          (.response none .undefined (.num 42)))
      = Client.step 0 ⟨0, 0, some "echo"⟩ ((Client.fresh []).call "echo" [.num 42]).2
          (.response none .undefined (.num 42)) :=
  ⟨rfl,
    (Client.call_settles_exactly_once (Client.fresh []) "echo" [.num 42]
      (.response none .undefined (.num 42)) [.expiry, .response none .undefined (.num 7)]
      rfl).2.2.2.2.1,
    (Client.call_settles_exactly_once (Client.fresh []) "echo" [.num 42]
      (.response none .undefined (.num 42)) [.expiry, .response none .undefined (.num 7)]
      rfl).2.2.2.2.2.2⟩

/-! ## Inbound calls on the server -/

theorem Socket.send_of_accepts (socket : Socket) (text : Text)
    (hsend : socket.transport.accepts = true) :
    socket.send text =
      (.ok (), ⟨socket._messageId,
        ⟨socket.transport.sent ++ [text], socket.transport.outcomes.tail⟩⟩) := by
  obtain ⟨mid, ⟨sent, outcomes⟩⟩ := socket
  match outcomes, hsend with
  | [], _ => simp [Socket.send, Transport.send]
  | none :: rest, _ => simp [Socket.send, Transport.send]
  | some e :: rest, h => simp [Transport.accepts] at h

theorem Server.sendSocket_reply (srv : Server) (socket : Socket) (id : Option Value)
    (data error : Value) (hsend : socket.transport.accepts = true) :
    srv.sendSocket socket "r" none false ⟨some id, data, error⟩ =
      (.returned, srv, ⟨increment socket._messageId,
        ⟨socket.transport.sent ++ [JSON.stringify ⟨some "r", none, id, data, error⟩],
          socket.transport.outcomes.tail⟩⟩) := by
  have h := Socket.send_of_accepts socket.messageId.2
    (JSON.stringify ⟨some "r", none, id, data, error⟩) hsend
  simp only [Server.sendSocket, Option.getD_some, h]
  simp [Socket.messageId]

theorem Server.handleMessage_outcome (srv : Server) (socket : Socket) (message : Text) :
    (srv.handleMessage socket message).1 = .returned := by
  unfold Server.handleMessage
  repeat' split
  all_goals rfl

theorem Server.handleMessage_call_truthy (srv : Server) (socket : Socket) (m : Envelope)
    (func : Handler) (args : List Value) (v : Value) (htype : m.type = some "c")
    (hfunc : resolveHandler srv._registeredFunctions (propertyKey m.ns) = some func)
    (hargs : applyArgs m.data = .ok args) (hres : func args = .ok v)
    (hv : v.truthy = true) (hsend : socket.transport.accepts = true) :
    srv.handleMessage socket (.json (.object m)) =
      (.returned,
        { srv with
          invoked := srv.invoked ++
            [(resolvedKey srv._registeredFunctions (propertyKey m.ns), args)] },
        ⟨increment socket._messageId,
          ⟨socket.transport.sent ++ [JSON.stringify ⟨some "r", none, m.id, v, .undefined⟩],
            socket.transport.outcomes.tail⟩⟩) := by
  simp [Server.handleMessage, JSON.parse, Server.processMessage, Parsed.destructure, htype,
    hfunc, hargs, hres, hv, Parsed.id, Server.sendSocket_reply _ socket _ _ _ hsend]

/-- C2, the code at inputs that break the claim. A server whose handler `f` returns 0,
`false`, `null`, the empty string or no value invokes the handler for an inbound call
of `f` with id 7 and then sends nothing at all: the socket is as it was, no response
frame reaches the caller. -/
theorem Server.handleMessage_falsy_result_sends_nothing :
    falsyResultRun (.num 0) = (Socket.fresh, [("f", [])]) ∧
    falsyResultRun (.bool false) = (Socket.fresh, [("f", [])]) ∧
    falsyResultRun .null = (Socket.fresh, [("f", [])]) ∧
    falsyResultRun (.str "") = (Socket.fresh, [("f", [])]) ∧
    falsyResultRun .undefined = (Socket.fresh, [("f", [])]) := by
  decide

theorem objectMember_of_not_inherited (key : String) (h : key ∉ inheritedNames) :
    objectMember key = none := by
  simp only [inheritedNames, List.mem_cons, List.mem_singleton, List.not_mem_nil, or_false,
    not_or] at h
  simp [objectMember, h]

theorem tableRead_of_not_inherited (table : List (String × Handler)) (key : String)
    (hown : Dict.get table key = none) (hname : key ∉ inheritedNames)
    (hproto : Dict.get table "__proto__" = none) : tableRead table key = none := by
  simp [tableRead, hown, inheritedMember, hproto, objectMember_of_not_inherited key hname]

/-- C3, the code at an input that breaks the claim. A server with nothing registered
receives a call of the
namespace `constructor`: the table, a plain object, reads the inherited function
`Object` under that name, so the lookup succeeds, the function is applied to the
payload and its result, an empty object, is sent as the response with the id of the
call; no failure is sent. -/
theorem Server.inherited_namespace_is_served :
    ((Server.fresh []).handleMessage Socket.fresh
        (callFrame 3 "constructor" [])).2.2.transport.sent = [responseFrame 3 (.obj [])] ∧
    ((Server.fresh []).handleMessage Socket.fresh
        (callFrame 3 "constructor" [])).2.1.invoked = [("constructor", [])] := by
  decide

/-- The part of C3 that the code does. For every inbound call frame whose namespace
is not the name of a
property that the table inherits (a member of `Object.prototype`; the prototype of
the table has not been replaced through `"__proto__"`) and has no entry in the table
of a server that has no `"*"` entry either, on a socket that accepts the frame:
`processMessage` throws the error 'Call to unregistered namespace "<namespace>".'
without invoking a handler, and `handleMessage` returns without throwing, leaves the
server as it was, and sends exactly one frame, a response with the id of the call
whose `error` field is the JSON form of that error: the empty object, a truthy value
that does not carry the message. -/
theorem Server.handleMessage_unregistered (srv : Server) (socket : Socket) (m : Envelope)
    (htype : m.type = some "c")
    (hexact : Dict.get srv._registeredFunctions (propertyKey m.ns) = none)
    (hname : propertyKey m.ns ∉ inheritedNames)
    (hproto : Dict.get srv._registeredFunctions "__proto__" = none)
    (hwild : Dict.get srv._registeredFunctions "*" = none)
    (hsend : socket.transport.accepts = true) :
    srv.processMessage socket (.object m) =
      (.error (.error ("Call to unregistered namespace \"" ++ propertyKey m.ns ++ "\".")),
        srv) ∧
    srv.handleMessage socket (.json (.object m)) =
      (.returned, srv,
        ⟨increment socket._messageId,
          ⟨socket.transport.sent ++
              [.json (.object ⟨some "r", none, m.id, .undefined, .obj []⟩)],
            socket.transport.outcomes.tail⟩⟩) ∧
    (Value.obj []).truthy = true := by
  have hread := tableRead_of_not_inherited _ _ hexact hname hproto
  have hstar : tableRead srv._registeredFunctions "*" = none := by
    rw [tableRead_wildcard, hwild]
  refine ⟨?_, ?_, rfl⟩
  · simp [Server.processMessage, Parsed.destructure, htype, resolveHandler, hread, hstar,
      unregisteredNamespace]
  · simp [Server.handleMessage, JSON.parse, Server.processMessage, Parsed.destructure, htype,
      resolveHandler, hread, hstar, Parsed.id, Server.sendSocket_reply _ socket _ _ _ hsend,
      JSON.stringify, unregisteredNamespace, Value.toJSON]

/-- A call of `missing` on a server with an empty table is answered with the error
response. -/
theorem Server.handleMessage_unregistered_witness :
    (Server.fresh []).handleMessage Socket.fresh (callFrame 3 "missing" []) =
      (.returned, Server.fresh [],
        ⟨1, ⟨[.json (.object ⟨some "r", none, some 3, .undefined, .obj []⟩)], []⟩⟩) :=
  (Server.handleMessage_unregistered (Server.fresh []) Socket.fresh
    ⟨some "c", some "missing", some 3, .arr [], .undefined⟩ rfl rfl (by decide) rfl rfl
    rfl).2.1

theorem Value.toJSON_defined (e : Value) (he : e ≠ .undefined) : e.toJSON ≠ .undefined := by
  cases e <;> simp [Value.toJSON] at he ⊢

/-- C4, the code at an input that breaks the claim. A handler that throws
`undefined` (as a promise rejected
without a reason does): the failure is caught, but the response sent has no `error`
field, since `JSON.stringify` leaves out a field that is `undefined`; the frame is
`{"type":"r","id":5}`, which a caller reads as a success. -/
theorem Server.thrown_undefined_leaves_no_error :
    ((Server.fresh [("boom", throwing .undefined)]).handleMessage Socket.fresh
        (callFrame 5 "boom" [])).2.2.transport.sent
      = [.json (.object ⟨some "r", none, some 5, .undefined, .undefined⟩)] ∧
    ((Server.fresh [("boom", throwing .undefined)]).handleMessage Socket.fresh
        (callFrame 5 "boom" [])).2.1.invoked = [("boom", [])] := by
  decide

/-- The part of C4 that the code does. For every inbound call frame whose handler
(found under the
namespace or under `"*"`) throws a value `e`, whatever `e` is: `handleMessage` returns
without throwing, whatever the transport does; and on a socket that accepts the frame
it sends exactly one frame, a response with the id of the call whose `error` field is
`e` as `JSON.stringify` writes it. For every `e` other than `undefined` that field is
present (an `Error` object is written as the empty object); for `undefined` the field
is left out. -/
theorem Server.handleMessage_handler_failure (srv : Server) (socket : Socket) (m : Envelope)
    (func : Handler) (args : List Value) (e : Value) (htype : m.type = some "c")
    (hfunc : resolveHandler srv._registeredFunctions (propertyKey m.ns) = some func)
    (hargs : applyArgs m.data = .ok args) (hres : func args = .error e) :
    (srv.handleMessage socket (.json (.object m))).1 = .returned ∧
    (socket.transport.accepts = true →
      (srv.handleMessage socket (.json (.object m))).2.2 =
        ⟨increment socket._messageId,
          ⟨socket.transport.sent ++
              [.json (.object ⟨some "r", none, m.id, .undefined, e.toJSON⟩)],
            socket.transport.outcomes.tail⟩⟩) ∧
    (e ≠ .undefined → e.toJSON ≠ .undefined) ∧
    (e = .undefined → e.toJSON = .undefined) := by
  refine ⟨Server.handleMessage_outcome _ _ _, fun hsend => ?_, Value.toJSON_defined e,
    fun he => by rw [he]; rfl⟩
  simp [Server.handleMessage, JSON.parse, Server.processMessage, Parsed.destructure, htype,
    hfunc, hargs, hres, Parsed.id, Server.sendSocket_reply _ socket _ _ _ hsend,
    JSON.stringify, Value.toJSON]

/-- The handler `boom` throws the string "bad", which the response carries. -/
theorem Server.handleMessage_handler_failure_witness :
    ((Server.fresh [("boom", throwing (.str "bad"))]).handleMessage Socket.fresh
        (callFrame 5 "boom" [.num 1])).1 = .returned ∧
    ((Server.fresh [("boom", throwing (.str "bad"))]).handleMessage Socket.fresh
        (callFrame 5 "boom" [.num 1])).2.2 =
      ⟨1, ⟨[.json (.object ⟨some "r", none, some 5, .undefined, .str "bad"⟩)], []⟩⟩ :=
  ⟨(Server.handleMessage_handler_failure (Server.fresh [("boom", throwing (.str "bad"))])
      Socket.fresh ⟨some "c", some "boom", some 5, .arr [.num 1], .undefined⟩
      (throwing (.str "bad")) [.num 1] (.str "bad") rfl rfl rfl rfl).1,
    (Server.handleMessage_handler_failure (Server.fresh [("boom", throwing (.str "bad"))])
      Socket.fresh ⟨some "c", some "boom", some 5, .arr [.num 1], .undefined⟩
      (throwing (.str "bad")) [.num 1] (.str "bad") rfl rfl rfl rfl).2.1 rfl⟩

/-! ## Signals on the wire -/

theorem Client.sendMessage_of_accepts (c : Client) (id : Option Value) (type : String)
    (ns : Option String) (data : Value) (hsend : c.transport.accepts = true) :
    c.sendMessage id type ns data false =
      (.returned,
        { c with
          _messageId := if id.isSome then c._messageId else increment c._messageId
          transport := ⟨c.transport.sent ++
            [JSON.stringify ⟨some type, ns, some (id.getD c._messageId), data, .undefined⟩],
            c.transport.outcomes.tail⟩ }) := by
  obtain ⟨rf, w, mid, ⟨sent, outcomes⟩, tm, nt, np, st, inv⟩ := c
  match outcomes, hsend with
  | [], _ => cases id <;> simp [Client.sendMessage, Client.messageId, Transport.send]
  | none :: rest, _ => cases id <;> simp [Client.sendMessage, Client.messageId, Transport.send]
  | some e :: rest, h => simp [Transport.accepts] at h

theorem Client.handleMessage_call_exact (c : Client) (m : Envelope) (exact : Handler)
    (args : List Value) (htype : m.type = some "c")
    (hexact : Dict.get c._registeredFunctions (propertyKey m.ns) = some exact)
    (hargs : applyArgs m.data = .ok args) :
    c.handleMessage (.json (.object m)) =
      match exact args with
      | .error e =>
        (.threw e, { c with invoked := c.invoked ++ [(propertyKey m.ns, args)] })
      | .ok result =>
        Client.sendMessage { c with invoked := c.invoked ++ [(propertyKey m.ns, args)] }
          m.id "r" none result false := by
  simp [Client.handleMessage, JSON.parse, Parsed.destructure, htype, resolveHandler,
    tableRead_of_get _ _ _ hexact, hargs]

theorem Client.signal_transport (c : Client) (ns : String) (data : List Value) :
    (c.signal ns data).2.transport = (c.call ns data).2.transport := by
  simp only [Client.signal, Client.call, Client.sendMessage, Client.entryKey]
  split <;> simp

theorem Socket.signal_socket (socket : Socket) (srv : Server) (ns : String)
    (data : List Value) :
    (socket.signal srv ns data).2.2 = (socket.call srv ns data).2.2 := by
  simp only [Socket.signal, Socket.call, Server.sendSocket]
  split <;> simp

/-- C5, counterexample. The frame that `signal("f", 1)` puts on the wire is an
ordinary call frame, and the peer that receives it answers: a server whose handler
`f` returns "done" sends a response frame back, and so does a client that receives
the frame of a server socket's `signal`. -/
theorem signal_frame_is_answered :
    ((Client.fresh []).signal "f" [.num 1]).2.transport.sent = [callFrame 0 "f" [.num 1]] ∧
    ((Server.fresh [("f", constant (.str "done"))]).handleMessage Socket.fresh
        (callFrame 0 "f" [.num 1])).2.2.transport.sent = [responseFrame 0 (.str "done")] ∧
    (Socket.fresh.signal (Server.fresh []) "f" [.num 1]).2.2.transport.sent
      = [callFrame 0 "f" [.num 1]] ∧
    ((Client.fresh [("f", constant (.str "done"))]).handleMessage
        (callFrame 0 "f" [.num 1])).2.transport.sent = [responseFrame 0 (.str "done")] := by
  decide

/-- C5, amended. For every namespace and argument list, `signal` leaves the
transport exactly as `call` does from the same state, on the client and on a server
socket: the frame is the call frame with the next id, and no field of it says that no
response is wanted. The peer therefore treats it as a call: a server whose handler
for the namespace returns a truthy value `v`, and a client whose own handler for the
namespace returns any value `v`, send back one response frame with the id of the
signal and the data `v`. -/
theorem signal_frame_is_call_frame (c : Client) (srv : Server) (socket : Socket)
    (ns : String) (data : List Value) (func : Handler) (v : Value)
    (hres : func (Value.toJSONItems data) = .ok v) :
    (c.signal ns data).2.transport = (c.call ns data).2.transport ∧
    (socket.signal srv ns data).2.2 = (socket.call srv ns data).2.2 ∧
    (c.transport.accepts = true →
      (c.signal ns data).2.transport.sent =
        c.transport.sent ++ [callFrame c._messageId ns (Value.toJSONItems data)]) ∧
    (socket.transport.accepts = true →
      (socket.signal srv ns data).2.2.transport.sent =
        socket.transport.sent ++ [callFrame socket._messageId ns (Value.toJSONItems data)]) ∧
    (∀ (id : Nat) (peer : Server) (wire : Socket),
      resolveHandler peer._registeredFunctions ns = some func → v.truthy = true →
      wire.transport.accepts = true →
      (peer.handleMessage wire (callFrame id ns (Value.toJSONItems data))).2.2.transport.sent
        = wire.transport.sent ++ [JSON.stringify ⟨some "r", none, some id, v, .undefined⟩]) ∧
    (∀ (id : Nat) (peer : Client),
      Dict.get peer._registeredFunctions ns = some func →
      peer.transport.accepts = true →
      (peer.handleMessage (callFrame id ns (Value.toJSONItems data))).2.transport.sent
        = peer.transport.sent ++ [JSON.stringify ⟨some "r", none, some id, v, .undefined⟩]) := by
  refine ⟨Client.signal_transport c ns data, Socket.signal_socket socket srv ns data,
    ?_, ?_, ?_, ?_⟩
  · intro hsend
    rw [Client.signal, Client.sendMessage_of_accepts c _ _ _ _ hsend]
    simp [JSON.stringify, callFrame, Value.toJSON]
  · intro hsend
    have h := Socket.send_of_accepts socket.messageId.2
      (JSON.stringify ⟨some "c", some ns, some socket._messageId, .arr data, .undefined⟩) hsend
    simp only [Socket.signal, Server.sendSocket, Option.getD_none]
    simp only [Socket.messageId] at h ⊢
    rw [h]
    simp [JSON.stringify, callFrame, Value.toJSON]
  · intro id peer wire hfunc hv hsend
    rw [callFrame, Server.handleMessage_call_truthy peer wire
      ⟨some "c", some ns, some id, .arr (Value.toJSONItems data), .undefined⟩ func
      (Value.toJSONItems data) v rfl hfunc rfl hres hv hsend]
  · intro id peer hfunc hsend
    rw [callFrame, Client.handleMessage_call_exact peer
      ⟨some "c", some ns, some id, .arr (Value.toJSONItems data), .undefined⟩ func
      (Value.toJSONItems data) rfl hfunc rfl, hres]
    have h := Client.sendMessage_of_accepts
      { peer with invoked := peer.invoked ++ [(propertyKey (some ns), Value.toJSONItems data)] }
      (some id) "r" none v hsend
    simp only at h ⊢
    rw [h]
    simp

/-- Witness of C5 as amended: `signal("f", 1)` against a peer whose `f` returns
"done". -/
theorem signal_frame_is_call_frame_witness :
    ((Client.fresh []).signal "f" [.num 1]).2.transport
      = ((Client.fresh []).call "f" [.num 1]).2.transport ∧
    ((Server.fresh [("f", constant (.str "done"))]).handleMessage Socket.fresh
        (callFrame 0 "f" [.num 1])).2.2.transport.sent
      = [.json (.object ⟨some "r", none, some 0, .str "done", .undefined⟩)] :=
  ⟨(signal_frame_is_call_frame (Client.fresh []) (Server.fresh []) Socket.fresh "f" [.num 1]
      (constant (.str "done")) (.str "done") rfl).1,
    (signal_frame_is_call_frame (Client.fresh []) (Server.fresh []) Socket.fresh "f" [.num 1]
      (constant (.str "done")) (.str "done") rfl).2.2.2.2.1 0
      (Server.fresh [("f", constant (.str "done"))]) Socket.fresh rfl rfl rfl⟩

/-! ## Dispatch -/

theorem Server.sendSocket_server (srv : Server) (socket : Socket) (type : String)
    (ns : Option String) (rest : Rest) :
    (srv.sendSocket socket type ns false rest).2.1 = srv := by
  simp only [Server.sendSocket]
  split <;> simp

theorem Server.handleMessage_server (srv : Server) (socket : Socket) (p : Parsed) :
    (srv.handleMessage socket (.json p)).2.1 = (srv.processMessage socket p).2 := by
  simp only [Server.handleMessage, JSON.parse]
  rcases hp : srv.processMessage socket p with ⟨r, srv1⟩
  cases r with
  | error e =>
    cases hid : p.id with
    | error _ => simp
    | ok id => simp [Server.sendSocket_server]
  | ok data =>
    by_cases hv : data.truthy = true
    · cases hid : p.id with
      | error e => simp [hv]
      | ok id =>
        have hs := Server.sendSocket_server srv1 socket "r" none ⟨some id, data, .undefined⟩
        rcases hsend : srv1.sendSocket socket "r" none false ⟨some id, data, .undefined⟩
          with ⟨o, srv2, socket2⟩
        rw [hsend] at hs
        simp only at hs
        subst hs
        cases o <;> simp [hv, hsend, Server.sendSocket_server]
    · simp [hv]

theorem Client.sendMessage_invoked (c : Client) (id : Option Value) (type : String)
    (ns : Option String) (data : Value) (response : Bool) :
    (c.sendMessage id type ns data response).2.invoked = c.invoked := by
  simp only [Client.sendMessage, Client.messageId]
  repeat' split
  all_goals rfl

/-- C6. On both endpoints, when the table holds a handler `exact` for the namespace
`ns` of an inbound call and a handler for `"*"` as well, and the payload gives the
argument list `args`: the server's `processMessage` yields what `exact args` yields,
the client's `handleMessage` throws what `exact args` throws or sends what it returns,
and on both the log of handler invocations grows by the one entry `(ns, args)`, the
handler stored under `ns` applied to the payload as positional arguments; the entry
of `"*"` is not invoked. -/
theorem exact_handler_before_wildcard (srv : Server) (socket : Socket) (c : Client)
    (m : Envelope) (ns : String) (args : List Value) (exact wild cexact cwild : Handler)
    (htype : m.type = some "c") (hns : m.ns = some ns) (hargs : applyArgs m.data = .ok args)
    (hexact : Dict.get srv._registeredFunctions ns = some exact)
    (_hwild : Dict.get srv._registeredFunctions "*" = some wild)
    (hcexact : Dict.get c._registeredFunctions ns = some cexact)
    (_hcwild : Dict.get c._registeredFunctions "*" = some cwild) :
    srv.processMessage socket (.object m) =
      (exact args, { srv with invoked := srv.invoked ++ [(ns, args)] }) ∧
    (srv.handleMessage socket (.json (.object m))).2.1.invoked = srv.invoked ++ [(ns, args)] ∧
    c.handleMessage (.json (.object m)) =
      (match cexact args with
      | .error e => (.threw e, { c with invoked := c.invoked ++ [(ns, args)] })
      | .ok result =>
        Client.sendMessage { c with invoked := c.invoked ++ [(ns, args)] }
          m.id "r" none result false) ∧
    (c.handleMessage (.json (.object m))).2.invoked = c.invoked ++ [(ns, args)] := by
  have hsrv : srv.processMessage socket (.object m) =
      (exact args, { srv with invoked := srv.invoked ++ [(ns, args)] }) := by
    simp [Server.processMessage, Parsed.destructure, htype, hns, propertyKey, resolveHandler,
      resolvedKey, tableRead_of_get _ _ _ hexact, hargs]
  have hcl := Client.handleMessage_call_exact c m cexact args htype
    (by simpa [hns, propertyKey] using hcexact) hargs
  simp only [hns, propertyKey, Option.getD_some] at hcl
  refine ⟨hsrv, ?_, hcl, ?_⟩
  · rw [Server.handleMessage_server, hsrv]
  · rw [hcl]
    cases cexact args with
    | error e => rfl
    | ok result => simp [Client.sendMessage_invoked]

/-- Witness of C6: `add` and `"*"` are both registered, and `add` is called. -/
theorem exact_handler_before_wildcard_witness :
    ((Server.fresh [("add", constant (.num 3)), ("*", constant (.str "wild"))]).handleMessage
        Socket.fresh (callFrame 1 "add" [.num 1, .num 2])).2.1.invoked
      = [("add", [.num 1, .num 2])] ∧
    ((Client.fresh [("add", constant (.num 3)), ("*", constant (.str "wild"))]).handleMessage
        (callFrame 1 "add" [.num 1, .num 2])).2.invoked
      = [("add", [.num 1, .num 2])] :=
  ⟨(exact_handler_before_wildcard
      (Server.fresh [("add", constant (.num 3)), ("*", constant (.str "wild"))]) Socket.fresh
      (Client.fresh [("add", constant (.num 3)), ("*", constant (.str "wild"))])
      ⟨some "c", some "add", some 1, .arr [.num 1, .num 2], .undefined⟩ "add"
      [.num 1, .num 2] (constant (.num 3)) (constant (.str "wild")) (constant (.num 3))
      (constant (.str "wild")) rfl rfl rfl rfl rfl rfl rfl).2.1,
    (exact_handler_before_wildcard
      (Server.fresh [("add", constant (.num 3)), ("*", constant (.str "wild"))]) Socket.fresh
      (Client.fresh [("add", constant (.num 3)), ("*", constant (.str "wild"))])
      ⟨some "c", some "add", some 1, .arr [.num 1, .num 2], .undefined⟩ "add"
      [.num 1, .num 2] (constant (.num 3)) (constant (.str "wild")) (constant (.num 3))
      (constant (.str "wild")) rfl rfl rfl rfl rfl rfl rfl).2.2.2⟩

/-- C7, the code at an input that breaks the claim. A client whose only handler is
`"*"` receives a call of `anything`: the lookup finds the wildcard, but the function
that is applied is read again under the called namespace, where there is none, so
`handleMessage` throws a `TypeError`, invokes no handler and sends nothing. The
server, with the same table and the same frame, invokes the wildcard and sends its
return value with the id of the call. -/
theorem Client.handleMessage_wildcard_only_throws :
    ((Client.fresh [("*", constant (.num 1))]).handleMessage (callFrame 4 "anything" [])).1
      = .threw (.error "TypeError: Cannot read properties of undefined") ∧
    ((Client.fresh [("*", constant (.num 1))]).handleMessage
        (callFrame 4 "anything" [])).2.invoked = [] ∧
    ((Client.fresh [("*", constant (.num 1))]).handleMessage
        (callFrame 4 "anything" [])).2.transport.sent = [] ∧
    ((Server.fresh [("*", constant (.num 1))]).handleMessage Socket.fresh
        (callFrame 4 "anything" [])).2.1.invoked = [("*", [])] ∧
    ((Server.fresh [("*", constant (.num 1))]).handleMessage Socket.fresh
        (callFrame 4 "anything" [])).2.2.transport.sent = [responseFrame 4 (.num 1)] := by
  decide

/-- C8, counterexample. With `"*"` registered as `(ns, ...a) => ns` and nothing else,
the call `anything(1)` is not answered with the string "anything": the wildcard is
applied to the payload `[1]` alone, so its first argument is the number 1. -/
theorem Server.wildcard_response_is_not_namespace :
    responseFrame 0 (.str "anything") ∉
      ((Server.fresh [("*", firstArgument)]).handleMessage Socket.fresh
        (callFrame 0 "anything" [.num 1])).2.2.transport.sent ∧
    ((Server.fresh [("*", firstArgument)]).handleMessage Socket.fresh
        (callFrame 0 "anything" [.num 1])).2.1.invoked = [("*", [.num 1])] := by
  decide

/-- C8, amended. With `"*"` registered as `(ns, ...a) => ns` and nothing else, an
inbound call of `anything` with payload `[1]` and any id makes the server apply the
wildcard to the payload alone and send exactly one frame, the response with that id
whose data is the number 1. -/
theorem Server.wildcard_receives_payload_only (id : Nat) :
    ((Server.fresh [("*", firstArgument)]).handleMessage Socket.fresh
        (callFrame id "anything" [.num 1])).2.2.transport.sent
      = [responseFrame id (.num 1)] ∧
    ((Server.fresh [("*", firstArgument)]).handleMessage Socket.fresh
        (callFrame id "anything" [.num 1])).2.1.invoked = [("*", [.num 1])] := by
  have h := Server.handleMessage_call_truthy (Server.fresh [("*", firstArgument)])
    Socket.fresh ⟨some "c", some "anything", some id, .arr [.num 1], .undefined⟩ firstArgument
    [.num 1] (.num 1) rfl rfl rfl rfl rfl rfl
  rw [callFrame, h]
  exact ⟨rfl, rfl⟩

/-! ## Responses without a pending call -/

theorem readWaiting_nothing (waiting : List (Nat × Pending)) (id : Option Value)
    (hentry : ∀ key, id.bind Value.toIndex = some key → Dict.get waiting key = none)
    (hname : ∀ v, id = some v → v.toKey ∉ inheritedNames) :
    readWaiting waiting id = .nothing := by
  cases id with
  | none => rfl
  | some v =>
    simp only [readWaiting]
    cases hidx : v.toIndex with
    | none => simp [hname v rfl]
    | some key => simp [hentry key (by simp [hidx])]

/-- C9, the code at an input that breaks the claim. A response frame whose id is the
string "constructor", which
no call ever issued, is not dropped: `_waiting`, a plain object, reads the inherited
function `Object` under that key, which has no `res`, so settling throws a
`TypeError`. On the client it escapes `handleMessage`; the server catches it and
sends an error response. -/
theorem inherited_id_is_not_dropped :
    ((Client.fresh []).handleMessage
        (.json (.object ⟨some "r", none, some (.str "constructor"), .num 1, .undefined⟩))).1
      = .threw notAFunction ∧
    ((Server.fresh []).handleMessage Socket.fresh
        (.json (.object ⟨some "r", none, some (.str "constructor"), .num 1,
          .undefined⟩))).2.2.transport.sent
      = [.json (.object ⟨some "r", none, some (.str "constructor"), .undefined, .obj []⟩)] := by
  decide

/-- The part of C9 that the code does. On both endpoints, for every inbound response
frame whose id has no
entry in `_waiting` and is not the name of a property that `_waiting` inherits from
`Object.prototype` (so: a frame without id, a number without entry, or any other
value whose key is neither the decimal form of a key with an entry nor such a name):
`handleMessage` returns without throwing and leaves the endpoint exactly as it was,
so no continuation is invoked, `_waiting` is unchanged and nothing is sent. -/
theorem response_without_entry_is_dropped (srv : Server) (socket : Socket) (c : Client)
    (m : Envelope) (htype : m.type = some "r")
    (hsrv : ∀ key, m.id.bind Value.toIndex = some key → Dict.get srv._waiting key = none)
    (hc : ∀ key, m.id.bind Value.toIndex = some key → Dict.get c._waiting key = none)
    (hname : ∀ v, m.id = some v → v.toKey ∉ inheritedNames) :
    srv.handleMessage socket (.json (.object m)) = (.returned, srv, socket) ∧
    c.handleMessage (.json (.object m)) = (.returned, c) := by
  have h1 := readWaiting_nothing srv._waiting m.id hsrv hname
  have h2 := readWaiting_nothing c._waiting m.id hc hname
  simp [Server.handleMessage, Server.processMessage, Client.handleMessage, JSON.parse,
    Parsed.destructure, htype, h1, h2, Value.truthy]

/-- A response with id 9 reaches a server and a client that wait for nothing, and is
dropped. -/
theorem response_without_entry_is_dropped_witness :
    (Server.fresh []).handleMessage Socket.fresh (responseFrame 9 (.num 1))
      = (.returned, Server.fresh [], Socket.fresh) ∧
    (Client.fresh []).handleMessage (responseFrame 9 (.num 1))
      = (.returned, Client.fresh []) :=
  response_without_entry_is_dropped (Server.fresh []) Socket.fresh (Client.fresh [])
    ⟨some "r", none, some 9, .num 1, .undefined⟩ rfl (fun _ _ => rfl) (fun _ _ => rfl)
    (by intro v hv; cases hv; decide)

/-! ## Two sockets on one server -/

/-- C10, the code at an input that breaks the claim. Two initialized sockets `a` and
`b` each issue their first call, `a` first. Both calls carry the id 0 and the
registry is keyed by id alone, so after both calls `_waiting` has the single entry 0,
which holds the continuations of the call on `b` (promise 1) and the timer of `b`;
the entry of the call on `a` (promise 0) is gone. A response with id 0 arriving on
`a` resolves the call of `b`, and the timer of `a`, still armed, then finds nothing to
reject: the call on `a` is never settled. If instead the timer of `a` fires first,
it rejects the call of `b` with the time-out of `f`. -/
theorem Server.calls_of_two_sockets_collide :
    twoPendingCalls.1 = .awaiting 0 ∧
    twoPendingCalls.2.1 = .awaiting 1 ∧
    twoPendingCalls.2.2.1._waiting = [(0, ⟨1, 1⟩)] ∧
    twoPendingCalls.2.2.1.timers = [⟨0, 0, some "f"⟩, ⟨1, 0, some "g"⟩] ∧
    (twoPendingCalls.2.2.1.handleMessage twoPendingCalls.2.2.2.1
        (responseFrame 0 (.num 5))).2.1.settled = [(1, .resolved (.num 5))] ∧
    (twoPendingCalls.2.2.1.handleMessage twoPendingCalls.2.2.2.1
        (responseFrame 0 (.num 5))).2.1.timers = [⟨0, 0, some "f"⟩] ∧
    ((twoPendingCalls.2.2.1.handleMessage twoPendingCalls.2.2.2.1
        (responseFrame 0 (.num 5))).2.1.fire 0).settled = [(1, .resolved (.num 5))] ∧
    (twoPendingCalls.2.2.1.fire 0).settled = [(1, .rejected (timedOut (some "f")))] := by
  decide

/-! ## Responses for a pending call -/

theorem clearTimeout_handle (timers : List Timer) (handle : Nat) :
    ∀ t ∈ clearTimeout timers handle, t.handle ≠ handle := by
  intro t ht
  simp [clearTimeout, List.mem_filter] at ht
  exact ht.2

/-- C11, counterexample. A response whose `error` field is present and falsy does not
reject the pending call: for the error values 0, `false`, `null` and the empty string
the call with id 0 is resolved, with the (absent) data of the frame, on the client and
on the server. -/
theorem falsy_error_resolves :
    (Client.pendingCall.handleMessage (errorFrame 0 (.num 0))).2.settled
      = [(0, .resolved .undefined)] ∧
    (Client.pendingCall.handleMessage (errorFrame 0 (.bool false))).2.settled
      = [(0, .resolved .undefined)] ∧
    (Client.pendingCall.handleMessage (errorFrame 0 .null)).2.settled
      = [(0, .resolved .undefined)] ∧
    (Client.pendingCall.handleMessage (errorFrame 0 (.str ""))).2.settled
      = [(0, .resolved .undefined)] ∧
    (Server.pendingCall.1.handleMessage Server.pendingCall.2 (errorFrame 0 (.num 0))).2.1.settled
      = [(0, .resolved .undefined)] ∧
    (Client.pendingCall.handleMessage (errorFrame 0 (.num 0))).2.settled
      ≠ [(0, .rejected (.num 0))] := by
  decide

/-- C11, amended. On both endpoints, for every inbound response frame whose id has an
entry in `_waiting` (the id is a value whose key is the decimal form of the key of
the entry): `handleMessage` returns without throwing, invokes exactly one
continuation of that entry, `rej(error)` when the `error` field is truthy and
`res(data)` otherwise (no `error` field, or a falsy one), deletes the entry and clears
its timer: afterwards the id has no entry and no armed timer has the handle of the
entry. The server sends nothing. -/
theorem response_settles_pending_call (srv : Server) (socket : Socket) (c : Client)
    (m : Envelope) (id : Value) (key : Nat) (sentry centry : Pending)
    (htype : m.type = some "r") (hid : m.id = some id) (hkey : id.toIndex = some key)
    (hsrv : Dict.get srv._waiting key = some sentry)
    (hc : Dict.get c._waiting key = some centry) :
    srv.handleMessage socket (.json (.object m)) =
      (.returned,
        { srv with
          timers := clearTimeout srv.timers sentry.timeout
          _waiting := Dict.delete srv._waiting key
          settled := srv.settled ++
            [(sentry.promise,
              if m.error.truthy then .rejected m.error else .resolved m.data)] },
        socket) ∧
    c.handleMessage (.json (.object m)) =
      (.returned,
        { c with
          timers := clearTimeout c.timers centry.timeout
          _waiting := Dict.delete c._waiting key
          settled := c.settled ++
            [(centry.promise,
              if m.error.truthy then .rejected m.error else .resolved m.data)] }) ∧
    Dict.get (srv.handleMessage socket (.json (.object m))).2.1._waiting key = none ∧
    Dict.get (c.handleMessage (.json (.object m))).2._waiting key = none ∧
    (∀ t ∈ (srv.handleMessage socket (.json (.object m))).2.1.timers,
      t.handle ≠ sentry.timeout) ∧
    (∀ t ∈ (c.handleMessage (.json (.object m))).2.timers, t.handle ≠ centry.timeout) := by
  have h1 : srv.handleMessage socket (.json (.object m)) =
      (.returned,
        { srv with
          timers := clearTimeout srv.timers sentry.timeout
          _waiting := Dict.delete srv._waiting key
          settled := srv.settled ++
            [(sentry.promise,
              if m.error.truthy then .rejected m.error else .resolved m.data)] },
        socket) := by
    simp [Server.handleMessage, Server.processMessage, JSON.parse, Parsed.destructure, htype,
      hid, readWaiting, hkey, hsrv, Value.truthy]
  have h2 : c.handleMessage (.json (.object m)) =
      (.returned,
        { c with
          timers := clearTimeout c.timers centry.timeout
          _waiting := Dict.delete c._waiting key
          settled := c.settled ++
            [(centry.promise,
              if m.error.truthy then .rejected m.error else .resolved m.data)] }) := by
    simp [Client.handleMessage, JSON.parse, Parsed.destructure, htype, hid, readWaiting, hkey,
      hc]
  refine ⟨h1, h2, ?_, ?_, ?_, ?_⟩
  · rw [h1]; exact Dict.get_delete_self _ _
  · rw [h2]; exact Dict.get_delete_self _ _
  · rw [h1]; exact clearTimeout_handle _ _
  · rw [h2]; exact clearTimeout_handle _ _

/-- Witness of C11 as amended: the pending call with id 0 receives a response with
the error "bad" on the server and on the client. -/
theorem response_settles_pending_call_witness :
    (Server.pendingCall.1.handleMessage Server.pendingCall.2
        (errorFrame 0 (.str "bad"))).2.1.settled = [(0, .rejected (.str "bad"))] ∧
    (Client.pendingCall.handleMessage (errorFrame 0 (.str "bad"))).2.settled
      = [(0, .rejected (.str "bad"))] :=
  ⟨congrArg (fun r => r.2.1.settled)
      (response_settles_pending_call Server.pendingCall.1 Server.pendingCall.2
        Client.pendingCall ⟨some "r", none, some 0, .undefined, .str "bad"⟩ 0 0 ⟨0, 0⟩
        ⟨0, 0⟩ rfl rfl rfl rfl rfl).1,
    congrArg (fun r => r.2.settled)
      (response_settles_pending_call Server.pendingCall.1 Server.pendingCall.2
        Client.pendingCall ⟨some "r", none, some 0, .undefined, .str "bad"⟩ 0 0 ⟨0, 0⟩
        ⟨0, 0⟩ rfl rfl rfl rfl rfl).2.1⟩

/-! ## Signals and failed sends -/

/-- C12. For every namespace and argument list, on a transport that accepts the
frame: `signal` returns (it does not wait on a promise) after sending exactly one
frame, the call frame of type "c" with the next id, and changes nothing else than the
id counter and the transport; `_waiting` and the armed timers are as before, on the
client and, for a server socket, on the server. -/
theorem signal_registers_nothing (c : Client) (srv : Server) (socket : Socket) (ns : String)
    (data : List Value) (hc : c.transport.accepts = true)
    (hs : socket.transport.accepts = true) :
    c.signal ns data =
      (.returned,
        { c with
          _messageId := increment c._messageId
          transport := ⟨c.transport.sent ++
            [callFrame c._messageId ns (Value.toJSONItems data)],
            c.transport.outcomes.tail⟩ }) ∧
    (c.signal ns data).2._waiting = c._waiting ∧
    (c.signal ns data).2.timers = c.timers ∧
    socket.signal srv ns data =
      (.returned, srv,
        ⟨increment socket._messageId,
          ⟨socket.transport.sent ++ [callFrame socket._messageId ns (Value.toJSONItems data)],
            socket.transport.outcomes.tail⟩⟩) := by
  have h1 : c.signal ns data =
      (.returned,
        { c with
          _messageId := increment c._messageId
          transport := ⟨c.transport.sent ++
            [callFrame c._messageId ns (Value.toJSONItems data)],
            c.transport.outcomes.tail⟩ }) := by
    rw [Client.signal, Client.sendMessage_of_accepts c _ _ _ _ hc]
    simp [JSON.stringify, callFrame, Value.toJSON]
  refine ⟨h1, by rw [h1], by rw [h1], ?_⟩
  have h := Socket.send_of_accepts socket.messageId.2
    (JSON.stringify ⟨some "c", some ns, some socket._messageId, .arr data, .undefined⟩) hs
  simp only [Socket.signal, Server.sendSocket, Option.getD_none]
  simp only [Socket.messageId] at h ⊢
  rw [h]
  simp [JSON.stringify, callFrame, Value.toJSON]

/-- Witness of C12: `signal("ns", 1, 2, 3)` on a fresh client and on a fresh socket. -/
theorem signal_registers_nothing_witness :
    (Client.fresh []).signal "ns" [.num 1, .num 2, .num 3] =
      (.returned,
        { Client.fresh [] with
          _messageId := 1
          transport := ⟨[callFrame 0 "ns" [.num 1, .num 2, .num 3]], []⟩ }) ∧
    Socket.fresh.signal (Server.fresh []) "ns" [.num 1, .num 2, .num 3] =
      (.returned, Server.fresh [],
        ⟨1, ⟨[callFrame 0 "ns" [.num 1, .num 2, .num 3]], []⟩⟩) :=
  ⟨(signal_registers_nothing (Client.fresh []) (Server.fresh []) Socket.fresh "ns"
      [.num 1, .num 2, .num 3] rfl rfl).1,
    (signal_registers_nothing (Client.fresh []) (Server.fresh []) Socket.fresh "ns"
      [.num 1, .num 2, .num 3] rfl rfl).2.2.2⟩

/-- C13. On both endpoints, when the transport fails the `send` of a `call` or of a
`signal` with the error `e`: the operation throws `e` to its caller, and nothing but
the id counter and the transport has changed; `_waiting` and the armed timers are as
before the operation (the entry is written and the timer armed only after the send). -/
theorem failed_send_propagates (c : Client) (srv : Server) (socket : Socket) (ns : String)
    (data : List Value) (e e2 : Value) (rest rest2 : List (Option Value))
    (hc : c.transport.outcomes = some e :: rest)
    (hs : socket.transport.outcomes = some e2 :: rest2) :
    c.call ns data =
      (.threw e,
        { c with _messageId := increment c._messageId, transport := ⟨c.transport.sent, rest⟩ }) ∧
    c.signal ns data =
      (.threw e,
        { c with _messageId := increment c._messageId, transport := ⟨c.transport.sent, rest⟩ }) ∧
    (c.call ns data).2._waiting = c._waiting ∧
    (c.call ns data).2.timers = c.timers ∧
    socket.call srv ns data =
      (.threw e2, srv, ⟨increment socket._messageId, ⟨socket.transport.sent, rest2⟩⟩) ∧
    socket.signal srv ns data =
      (.threw e2, srv, ⟨increment socket._messageId, ⟨socket.transport.sent, rest2⟩⟩) := by
  have h1 : c.call ns data =
      (.threw e,
        { c with _messageId := increment c._messageId, transport := ⟨c.transport.sent, rest⟩ }) := by
    simp [Client.call, Client.sendMessage, Client.messageId, Transport.send, hc]
  refine ⟨h1, ?_, by rw [h1], by rw [h1], ?_, ?_⟩
  · simp [Client.signal, Client.sendMessage, Client.messageId, Transport.send, hc]
  · simp [Socket.call, Server.sendSocket, Socket.messageId, Socket.send, Transport.send, hs]
  · simp [Socket.signal, Server.sendSocket, Socket.messageId, Socket.send, Transport.send, hs]

/-- Witness of C13: a call on a client and on a socket whose connection is closed. -/
theorem failed_send_propagates_witness :
    Client.disconnected.call "f" [] =
      (.threw notOpen, { Client.fresh [] with _messageId := 1 }) ∧
    Socket.disconnected.call (Server.fresh []) "f" [] =
      (.threw notOpen, Server.fresh [], ⟨1, ⟨[], []⟩⟩) :=
  ⟨(failed_send_propagates Client.disconnected (Server.fresh []) Socket.disconnected "f" []
      notOpen notOpen [] [] rfl rfl).1,
    (failed_send_propagates Client.disconnected (Server.fresh []) Socket.disconnected "f" []
      notOpen notOpen [] [] rfl rfl).2.2.2.2.1⟩

/-! ## Messages that are not envelopes -/

theorem Server.processMessage_call_waiting (srv : Server) (socket : Socket) (m : Envelope)
    (htype : m.type = some "c") :
    (srv.processMessage socket (.object m)).2._waiting = srv._waiting := by
  simp only [Server.processMessage, Parsed.destructure, htype, if_true]
  repeat' split
  all_goals rfl

/-- C14, counterexample. A call frame without the field `namespace` is not dropped:
a server with no handler answers it with an error response carrying its id, and a
server with a wildcard handler invokes the wildcard and answers with its result. -/
theorem Server.nameless_call_is_answered :
    ((Server.fresh []).handleMessage Socket.fresh (namelessCallFrame 1 [])).2.2.transport.sent
      = [errorFrame 1 (.obj [])] ∧
    ((Server.fresh [("*", constant (.num 1))]).handleMessage Socket.fresh
        (namelessCallFrame 1 [])).2.1.invoked = [("*", [])] ∧
    ((Server.fresh [("*", constant (.num 1))]).handleMessage Socket.fresh
        (namelessCallFrame 1 [])).2.2.transport.sent = [responseFrame 1 (.num 1)] := by
  decide

/-- C14, amended. On the server, a text that is not JSON, the JSON value `null`, a
JSON value that is not an object, and an object whose `type` is neither "c" nor "r"
make `handleMessage` return without throwing and leave the server and the socket
exactly as they were: no handler is invoked, nothing is sent, `_waiting` is unchanged.
A "c" envelope without `namespace` is not a decode failure: it is handled exactly as
the call of the namespace "undefined" with the same id and data; this too returns
without throwing and leaves `_waiting` unchanged. -/
theorem Server.handleMessage_not_an_envelope (srv : Server) (socket : Socket)
    (m n : Envelope) (hc : m.type ≠ some "c") (hr : m.type ≠ some "r")
    (hn : n.type = some "c") (hns : n.ns = none) :
    srv.handleMessage socket .invalid = (.returned, srv, socket) ∧
    srv.handleMessage socket (.json .null) = (.returned, srv, socket) ∧
    srv.handleMessage socket (.json .scalar) = (.returned, srv, socket) ∧
    srv.handleMessage socket (.json (.object m)) = (.returned, srv, socket) ∧
    srv.handleMessage socket (.json (.object n))
      = srv.handleMessage socket (.json (.object { n with ns := some "undefined" })) ∧
    (srv.handleMessage socket (.json (.object n))).1 = .returned ∧
    (srv.handleMessage socket (.json (.object n))).2.1._waiting = srv._waiting := by
  refine ⟨?_, ?_, ?_, ?_, ?_, Server.handleMessage_outcome _ _ _, ?_⟩
  · simp [Server.handleMessage, JSON.parse]
  · simp [Server.handleMessage, JSON.parse, Server.processMessage, Parsed.destructure,
      Parsed.id]
  · simp [Server.handleMessage, JSON.parse, Server.processMessage, Parsed.destructure,
      Value.truthy]
  · simp [Server.handleMessage, JSON.parse, Server.processMessage, Parsed.destructure, hc, hr,
      Value.truthy]
  · simp [Server.handleMessage, JSON.parse, Server.processMessage, Parsed.destructure,
      Parsed.id, hn, hns, propertyKey, unregisteredNamespace]
  · rw [Server.handleMessage_server, Server.processMessage_call_waiting srv socket n hn]

/-- Witness of C14 as amended: an object of type "x", and a call frame without
`namespace`, on a fresh server. -/
theorem Server.handleMessage_not_an_envelope_witness :
    (Server.fresh []).handleMessage Socket.fresh
        (.json (.object ⟨some "x", none, some 1, .undefined, .undefined⟩))
      = (.returned, Server.fresh [], Socket.fresh) ∧
    (Server.fresh []).handleMessage Socket.fresh (namelessCallFrame 1 [])
      = (Server.fresh []).handleMessage Socket.fresh (callFrame 1 "undefined" []) :=
  ⟨(Server.handleMessage_not_an_envelope (Server.fresh []) Socket.fresh
      ⟨some "x", none, some 1, .undefined, .undefined⟩
      ⟨some "c", none, some 1, .arr [], .undefined⟩ (by decide) (by decide) rfl rfl).2.2.2.1,
    (Server.handleMessage_not_an_envelope (Server.fresh []) Socket.fresh
      ⟨some "x", none, some 1, .undefined, .undefined⟩
      ⟨some "c", none, some 1, .arr [], .undefined⟩ (by decide) (by decide) rfl rfl).2.2.2.2.1⟩

/-! ## Calls that the client cannot serve -/

/-- C15, the code at inputs that break the claim. A client without any handler
receives a call of `missing`, and a client whose handler `boom` throws "bad" receives
a call of `boom`: in both cases `handleMessage` throws the failure to its caller (the
event emitter) and sends nothing. The server, with the same tables and frames, sends
the error response with the id of the call. -/
theorem Client.handleMessage_failures_escape :
    ((Client.fresh []).handleMessage (callFrame 2 "missing" [])).1
      = .threw (unregisteredNamespace (some "missing")) ∧
    ((Client.fresh []).handleMessage (callFrame 2 "missing" [])).2.transport.sent = [] ∧
    ((Client.fresh [("boom", throwing (.str "bad"))]).handleMessage
        (callFrame 2 "boom" [])).1 = .threw (.str "bad") ∧
    ((Client.fresh [("boom", throwing (.str "bad"))]).handleMessage
        (callFrame 2 "boom" [])).2.transport.sent = [] ∧
    ((Server.fresh []).handleMessage Socket.fresh
        (callFrame 2 "missing" [])).2.2.transport.sent = [errorFrame 2 (.obj [])] ∧
    ((Server.fresh [("boom", throwing (.str "bad"))]).handleMessage Socket.fresh
        (callFrame 2 "boom" [])).2.2.transport.sent = [errorFrame 2 (.str "bad")] := by
  decide

/-! ## The dispatch table -/

theorem Dict.get_delete_other {κ α : Type} [BEq κ] [LawfulBEq κ] (o : List (κ × α))
    (k other : κ) (hne : other ≠ k) :
    Dict.get (Dict.delete o k) other = Dict.get o other := by
  induction o with
  | nil => rfl
  | cons p rest ih =>
    obtain ⟨a, b⟩ := p
    simp only [Dict.get, Dict.delete] at ih ⊢
    by_cases hak : a = k
    · subst hak
      have h2 : (other == a) = false := by simpa using hne
      simp [List.filter, List.lookup, h2, ih]
    · have h1 : (a == k) = false := by simpa using hak
      by_cases hoa : other = a
      · subst hoa
        simp [List.filter, h1, List.lookup]
      · have h2 : (other == a) = false := by simpa using hoa
        simp [List.filter, h1, List.lookup, h2, ih]

theorem Dict.get_set_other {κ α : Type} [BEq κ] [LawfulBEq κ] (o : List (κ × α))
    (k other : κ) (v : α) (hne : other ≠ k) :
    Dict.get (Dict.set o k v) other = Dict.get o other := by
  have h2 : (other == k) = false := by simpa using hne
  have h := Dict.get_delete_other o k other hne
  simp only [Dict.get, Dict.set] at h ⊢
  simp [List.lookup, h2, h]

theorem Dict.delete_keys {κ α : Type} [BEq κ] [LawfulBEq κ] (o : List (κ × α)) (k : κ) :
    ∀ p ∈ Dict.delete o k, p.1 ≠ k := by
  intro p hp
  simp [Dict.delete, List.mem_filter] at hp
  exact hp.2

theorem Dict.entries_delete {κ α : Type} [BEq κ] [LawfulBEq κ] (o : List (κ × α)) (k : κ) :
    (Dict.delete o k).filter (fun p => p.1 == k) = [] := by
  rw [List.filter_eq_nil_iff]
  intro p hp
  simpa using Dict.delete_keys o k p hp

theorem Dict.entries_set {κ α : Type} [BEq κ] [LawfulBEq κ] (o : List (κ × α)) (k : κ)
    (v : α) : (Dict.set o k v).filter (fun p => p.1 == k) = [(k, v)] := by
  simp [Dict.set, List.filter, Dict.entries_delete]

theorem tableRead_congr (t1 t2 : List (String × Handler)) (key : String)
    (hkey : Dict.get t1 key = Dict.get t2 key)
    (hproto : Dict.get t1 "__proto__" = Dict.get t2 "__proto__") :
    tableRead t1 key = tableRead t2 key := by
  simp [tableRead, inheritedMember, hkey, hproto]

theorem table_register_unregister (t : List (String × Handler)) (ns other : String)
    (h1 h2 : Handler) (hns : ns ≠ "__proto__") (hne : other ≠ ns) :
    (Dict.set (Dict.set t ns h1) ns h2).filter (fun p => p.1 == ns) = [(ns, h2)] ∧
    tableRead (Dict.set (Dict.set t ns h1) ns h2) ns = some h2 ∧
    Dict.get (Dict.set (Dict.set t ns h1) ns h2) other = Dict.get t other ∧
    tableRead (Dict.set (Dict.set t ns h1) ns h2) other = tableRead t other ∧
    (Dict.delete t ns).filter (fun p => p.1 == ns) = [] ∧
    Dict.get (Dict.delete t ns) ns = none ∧
    tableRead (Dict.delete t ns) ns = inheritedMember t ns ∧
    Dict.get (Dict.delete t ns) other = Dict.get t other ∧
    tableRead (Dict.delete t ns) other = tableRead t other := by
  have hp : ("__proto__" : String) ≠ ns := fun h => hns h.symm
  have hset : ∀ k, k ≠ ns →
      Dict.get (Dict.set (Dict.set t ns h1) ns h2) k = Dict.get t k := by
    intro k hk
    rw [Dict.get_set_other _ _ _ _ hk, Dict.get_set_other _ _ _ _ hk]
  refine ⟨Dict.entries_set _ _ _, tableRead_of_get _ _ _ (Dict.get_set_self _ _ _),
    hset other hne, tableRead_congr _ _ _ (hset other hne) (hset _ hp),
    Dict.entries_delete _ _, Dict.get_delete_self _ _, ?_,
    Dict.get_delete_other _ _ _ hne,
    tableRead_congr _ _ _ (Dict.get_delete_other _ _ _ hne) (Dict.get_delete_other _ _ _ hp)⟩
  simp [tableRead, Dict.get_delete_self, inheritedMember, Dict.get_delete_other _ _ _ hp]

/-- C16, the code at inputs that break the claim. `register("__proto__", h)` creates
no entry: the assignment
sets the prototype of the table, which has no own entry afterwards; under the name
`call`, which read nothing before, the table now reads a property of the function;
and `unregister("__proto__")` then removes nothing, so the table still reads the
function under `"__proto__"`. Likewise `unregister("toString")` leaves the inherited
function to be read under that name. -/
theorem register_proto_creates_no_entry :
    ownEntries ((Server.fresh []).register "__proto__" echo)._registeredFunctions = [] ∧
    (tableRead (Server.fresh [])._registeredFunctions "call").isSome = false ∧
    (tableRead ((Server.fresh []).register "__proto__" echo)._registeredFunctions
      "call").isSome = true ∧
    (tableRead (((Server.fresh []).register "__proto__" echo).unregister
      "__proto__")._registeredFunctions "__proto__").isSome = true ∧
    (tableRead ((Server.fresh []).unregister "toString")._registeredFunctions
      "toString").isSome = true ∧
    ownEntries ((Client.fresh []).register "__proto__" echo)._registeredFunctions = [] ∧
    (tableRead (((Client.fresh []).register "__proto__" echo).unregister
      "__proto__")._registeredFunctions "__proto__").isSome = true := by
  refine ⟨rfl, ?_, ?_, ?_, ?_, rfl, ?_⟩ <;> decide

/-- The part of C16 that the code does. On both endpoints, for every namespace `ns`
other than
`"__proto__"`, handlers `h1` and `h2` and every other namespace: after
`register(ns, h1)` and then `register(ns, h2)` the table has exactly one entry with
the key `ns`, which holds `h2`, and reads `h2` under `ns`; after `unregister(ns)` the
table has no entry with the key `ns`, and reads under `ns` what it inherits under that
name (nothing, unless `ns` names an inherited property); and after each of the two
the entry of the other namespace, and what the table reads under it, are as before. -/
theorem register_overwrites_unregister_removes (srv : Server) (c : Client) (ns other : String)
    (h1 h2 : Handler) (hns : ns ≠ "__proto__") (hne : other ≠ ns) :
    (((srv.register ns h1).register ns h2)._registeredFunctions.filter
        (fun p => p.1 == ns) = [(ns, h2)] ∧
      tableRead ((srv.register ns h1).register ns h2)._registeredFunctions ns = some h2 ∧
      Dict.get ((srv.register ns h1).register ns h2)._registeredFunctions other
        = Dict.get srv._registeredFunctions other ∧
      tableRead ((srv.register ns h1).register ns h2)._registeredFunctions other
        = tableRead srv._registeredFunctions other ∧
      (srv.unregister ns)._registeredFunctions.filter (fun p => p.1 == ns) = [] ∧
      Dict.get (srv.unregister ns)._registeredFunctions ns = none ∧
      tableRead (srv.unregister ns)._registeredFunctions ns
        = inheritedMember srv._registeredFunctions ns ∧
      Dict.get (srv.unregister ns)._registeredFunctions other
        = Dict.get srv._registeredFunctions other ∧
      tableRead (srv.unregister ns)._registeredFunctions other
        = tableRead srv._registeredFunctions other) ∧
    (((c.register ns h1).register ns h2)._registeredFunctions.filter
        (fun p => p.1 == ns) = [(ns, h2)] ∧
      tableRead ((c.register ns h1).register ns h2)._registeredFunctions ns = some h2 ∧
      Dict.get ((c.register ns h1).register ns h2)._registeredFunctions other
        = Dict.get c._registeredFunctions other ∧
      tableRead ((c.register ns h1).register ns h2)._registeredFunctions other
        = tableRead c._registeredFunctions other ∧
      (c.unregister ns)._registeredFunctions.filter (fun p => p.1 == ns) = [] ∧
      Dict.get (c.unregister ns)._registeredFunctions ns = none ∧
      tableRead (c.unregister ns)._registeredFunctions ns
        = inheritedMember c._registeredFunctions ns ∧
      Dict.get (c.unregister ns)._registeredFunctions other
        = Dict.get c._registeredFunctions other ∧
      tableRead (c.unregister ns)._registeredFunctions other
        = tableRead c._registeredFunctions other) := by
  constructor
  · simpa [Server.register, Server.unregister, hns] using
      table_register_unregister srv._registeredFunctions ns other h1 h2 hns hne
  · simpa [Client.register, Client.unregister, hns] using
      table_register_unregister c._registeredFunctions ns other h1 h2 hns hne

/-- The handler `f` is registered twice on endpoints that also have `g`. -/
theorem register_overwrites_unregister_removes_witness :
    tableRead (((Server.fresh [("g", echo)]).register "f" (constant (.num 1))).register "f"
        (constant (.num 2)))._registeredFunctions "f" = some (constant (.num 2)) ∧
    Dict.get (((Client.fresh [("g", echo)]).register "f" (constant (.num 1))).register "f"
        (constant (.num 2)))._registeredFunctions "g"
      = Dict.get (Client.fresh [("g", echo)])._registeredFunctions "g" :=
  ⟨(register_overwrites_unregister_removes (Server.fresh [("g", echo)])
      (Client.fresh [("g", echo)]) "f" "g" (constant (.num 1)) (constant (.num 2))
      (by decide) (by decide)).1.2.1,
    (register_overwrites_unregister_removes (Server.fresh [("g", echo)])
      (Client.fresh [("g", echo)]) "f" "g" (constant (.num 1)) (constant (.num 2))
      (by decide) (by decide)).2.2.2.1⟩

/-! ## Round trip of a call from the server to the client -/

mutual
theorem Value.toJSON_of_isJSON : ∀ (v : Value), v.isJSON = true → v.toJSON = v
  | .undefined, h => by simp [Value.isJSON] at h
  | .null, _ => rfl
  | .bool _, _ => rfl
  | .num _, _ => rfl
  | .str _, _ => rfl
  | .arr items, h => by
    simp only [Value.isJSON] at h
    simp [Value.toJSON, Value.toJSONItems_of_isJSON items h]
  | .obj fields, h => by
    simp only [Value.isJSON] at h
    simp [Value.toJSON, Value.toJSONFields_of_isJSON fields h]
  | .error _, h => by simp [Value.isJSON] at h
theorem Value.toJSONItems_of_isJSON :
    ∀ (items : List Value), Value.isJSONItems items = true → Value.toJSONItems items = items
  | [], _ => rfl
  | v :: rest, h => by
    simp only [Value.isJSONItems, Bool.and_eq_true] at h
    have hv := Value.toJSON_of_isJSON v h.1
    have hr := Value.toJSONItems_of_isJSON rest h.2
    cases v with
    | undefined => simp [Value.isJSON] at h
    | _ => simp only [Value.toJSONItems, hv, hr]
theorem Value.toJSONFields_of_isJSON :
    ∀ (fields : List (String × Value)),
      Value.isJSONFields fields = true → Value.toJSONFields fields = fields
  | [], _ => rfl
  | (k, v) :: rest, h => by
    simp only [Value.isJSONFields, Bool.and_eq_true] at h
    have hv := Value.toJSON_of_isJSON v h.1
    have hr := Value.toJSONFields_of_isJSON rest h.2
    cases v with
    | undefined => simp [Value.isJSON] at h
    | _ => simp only [Value.toJSONFields, hv, hr]
end

theorem Socket.call_of_accepts (socket : Socket) (srv : Server) (ns : String) (data : List Value)
    (hsend : socket.transport.accepts = true) :
    socket.call srv ns data =
      (.awaiting srv.nextPromise,
        { srv with
          _waiting := Dict.set srv._waiting socket._messageId ⟨srv.nextPromise, srv.nextTimer⟩
          timers := srv.timers ++ [⟨srv.nextTimer, socket._messageId, some ns⟩]
          nextTimer := srv.nextTimer + 1
          nextPromise := srv.nextPromise + 1 },
        ⟨increment socket._messageId,
          ⟨socket.transport.sent ++ [callFrame socket._messageId ns (Value.toJSONItems data)],
            socket.transport.outcomes.tail⟩⟩) := by
  have h := Socket.send_of_accepts socket.messageId.2
    (JSON.stringify ⟨some "c", some ns, some socket._messageId, .arr data, .undefined⟩) hsend
  simp only [Socket.call, Server.sendSocket, Option.getD_none]
  simp only [Socket.messageId] at h ⊢
  rw [h]
  simp [JSON.stringify, callFrame, Value.toJSON]

/-- C17. For every JSON value `v`, with transports that accept the frames: a server
socket's `call("echo", v)` waits on a fresh promise and sends the call frame with the
next id and the data `[v]`; a client that has registered `echo` as the function
returning its single argument answers that frame with the response frame of the same
id and the data `v`; and the server, handling that response on the socket, resolves
the promise of the call with `v` (the only continuation it invokes), after which
`_waiting` has no entry for the id of the call. -/
theorem echo_round_trip (srv : Server) (socket : Socket) (c : Client) (v : Value)
    (hv : v.isJSON = true) (hecho : Dict.get c._registeredFunctions "echo" = some echo)
    (hs : socket.transport.accepts = true) (hc : c.transport.accepts = true) :
    (socket.call srv "echo" [v]).1 = .awaiting srv.nextPromise ∧
    (socket.call srv "echo" [v]).2.2.transport.sent
      = socket.transport.sent ++ [callFrame socket._messageId "echo" [v]] ∧
    (c.handleMessage (callFrame socket._messageId "echo" [v])).2.transport.sent
      = c.transport.sent ++ [responseFrame socket._messageId v] ∧
    ((socket.call srv "echo" [v]).2.1.handleMessage (socket.call srv "echo" [v]).2.2
        (responseFrame socket._messageId v)).2.1.settled
      = srv.settled ++ [(srv.nextPromise, .resolved v)] ∧
    Dict.get ((socket.call srv "echo" [v]).2.1.handleMessage (socket.call srv "echo" [v]).2.2
        (responseFrame socket._messageId v)).2.1._waiting socket._messageId = none := by
  have hjson := Value.toJSON_of_isJSON v hv
  have hitems : Value.toJSONItems [v] = [v] :=
    Value.toJSONItems_of_isJSON [v] (by simp [Value.isJSONItems, hv])
  have hcall := Socket.call_of_accepts socket srv "echo" [v] hs
  rw [hitems] at hcall
  have hget : Dict.get (socket.call srv "echo" [v]).2.1._waiting socket._messageId
      = some ⟨srv.nextPromise, srv.nextTimer⟩ := by
    rw [hcall]; exact Dict.get_set_self _ _ _
  have hresp : (socket.call srv "echo" [v]).2.1.handleMessage (socket.call srv "echo" [v]).2.2
      (responseFrame socket._messageId v) =
      (.returned,
        { (socket.call srv "echo" [v]).2.1 with
          timers := clearTimeout (socket.call srv "echo" [v]).2.1.timers srv.nextTimer
          _waiting := Dict.delete (socket.call srv "echo" [v]).2.1._waiting socket._messageId
          settled := (socket.call srv "echo" [v]).2.1.settled ++
            [(srv.nextPromise, .resolved v)] },
        (socket.call srv "echo" [v]).2.2) := by
    simp [responseFrame, Server.handleMessage, Server.processMessage, JSON.parse,
      Parsed.destructure, readWaiting_ofNat, hget, Value.truthy]
  refine ⟨by rw [hcall], by rw [hcall], ?_, ?_, ?_⟩
  · rw [callFrame, Client.handleMessage_call_exact c
      ⟨some "c", some "echo", some socket._messageId, .arr [v], .undefined⟩ echo [v] rfl
      hecho rfl]
    have h := Client.sendMessage_of_accepts
      { c with invoked := c.invoked ++ [(propertyKey (some "echo"), [v])] }
      (some socket._messageId) "r" none v hc
    simp only [echo, List.headD_cons] at h ⊢
    rw [h]
    simp [JSON.stringify, responseFrame, hjson, Value.toJSON]
  · rw [hresp]
    simp only
    rw [hcall]
  · rw [hresp]
    exact Dict.get_delete_self _ _

/-- Witness of C17: the server calls `echo(42)` on a client that registered `echo`. -/
theorem echo_round_trip_witness :
    ((Client.fresh [("echo", echo)]).handleMessage (callFrame 0 "echo" [.num 42])).2.transport.sent
      = [responseFrame 0 (.num 42)] ∧
    ((Socket.fresh.call (Server.fresh []) "echo" [.num 42]).2.1.handleMessage
        (Socket.fresh.call (Server.fresh []) "echo" [.num 42]).2.2
        (responseFrame 0 (.num 42))).2.1.settled
      = [(0, .resolved (.num 42))] :=
  ⟨(echo_round_trip (Server.fresh []) Socket.fresh (Client.fresh [("echo", echo)]) (.num 42)
      rfl rfl rfl rfl).2.2.1,
    (echo_round_trip (Server.fresh []) Socket.fresh (Client.fresh [("echo", echo)]) (.num 42)
      rfl rfl rfl rfl).2.2.2.1⟩

/-! ## The ids of a client -/

theorem le_increment (n : Nat) : n ≤ increment n := by
  simp only [increment]
  split
  · exact Nat.le_succ n
  · exact Nat.le_refl n

theorem increment_of_lt (n : Nat) (h : n < maxExactInteger) : increment n = n + 1 := by
  simp [increment, h]

theorem lt_of_increment_lt (n : Nat) (h : increment n < maxExactInteger) :
    n < maxExactInteger :=
  Nat.lt_of_le_of_lt (le_increment n) h

theorem Client.sendMessage_messageId (c : Client) (id : Option Value) (type : String)
    (ns : Option String) (data : Value) (response : Bool) :
    (c.sendMessage id type ns data response).2._messageId
      = if id.isSome then c._messageId else increment c._messageId := by
  simp only [Client.sendMessage, Client.messageId]
  repeat' split
  all_goals rfl

theorem Client.sendMessage_waiting (c : Client) (id : Option Value) (type : String)
    (ns : Option String) (data : Value) :
    (c.sendMessage id type ns data false).2._waiting = c._waiting := by
  simp only [Client.sendMessage, Client.messageId]
  repeat' split
  all_goals first
    | rfl
    | simp_all

theorem Client.call_waiting (c : Client) (ns : String) (data : List Value) :
    (c.call ns data).2._waiting = c._waiting ∨
    (c.call ns data).2._waiting
      = Dict.set c._waiting c._messageId ⟨c.nextPromise, c.nextTimer⟩ := by
  simp only [Client.call, Client.sendMessage, Client.messageId, Client.entryKey]
  split <;> simp

theorem Dict.mem_delete {κ α : Type} [BEq κ] (o : List (κ × α)) (k : κ) (p : κ × α)
    (hp : p ∈ Dict.delete o k) : p ∈ o := by
  simp only [Dict.delete, List.mem_filter] at hp
  exact hp.1

theorem Client.handleMessage_messageId_le (c : Client) (text : Text) :
    c._messageId ≤ (c.handleMessage text).2._messageId := by
  simp only [Client.handleMessage]
  repeat' split
  all_goals first
    | exact Nat.le_refl _
    | (rw [Client.sendMessage_messageId]; split
       · exact Nat.le_refl _
       · exact le_increment _)

theorem Client.handleMessage_messageId_eq (c : Client) (text : Text)
    (hid : (Client.Op.message text).carriesId = true) :
    (c.handleMessage text).2._messageId = c._messageId := by
  match text, hid with
  | .invalid, _ => simp [Client.handleMessage, JSON.parse]
  | .json .null, _ => simp [Client.handleMessage, JSON.parse, Parsed.destructure]
  | .json .scalar, _ => simp [Client.handleMessage, JSON.parse, Parsed.destructure]
  | .json (.object m), hid =>
    simp only [Client.Op.carriesId] at hid
    simp only [Client.handleMessage, JSON.parse, Parsed.destructure]
    repeat' split
    all_goals first
      | rfl
      | (rw [Client.sendMessage_messageId]
         cases hm : m.id <;> simp_all)

theorem Client.handleMessage_waiting (c : Client) (text : Text) :
    ∀ p ∈ (c.handleMessage text).2._waiting, p ∈ c._waiting := by
  intro p
  simp only [Client.handleMessage]
  repeat' split
  all_goals first
    | exact fun hp => hp
    | (rw [Client.sendMessage_waiting]; exact fun hp => hp)
    | exact fun hp => Dict.mem_delete _ _ _ hp

theorem Client.expire_waiting (c : Client) (t : Timer) :
    ∀ p ∈ (c.expire t)._waiting, p ∈ c._waiting := by
  intro p
  simp only [Client.expire, Client.timeoutCallback]
  split
  · exact fun hp => Dict.mem_delete _ _ _ hp
  · exact fun hp => hp

theorem Client.expire_messageId (c : Client) (t : Timer) :
    (c.expire t)._messageId = c._messageId := by
  simp only [Client.expire, Client.timeoutCallback]
  split <;> rfl

theorem Client.register_messageId (c : Client) (ns : String) (func : Handler) :
    (c.register ns func)._messageId = c._messageId := rfl

theorem Client.unregister_messageId (c : Client) (ns : String) :
    (c.unregister ns)._messageId = c._messageId := by
  simp only [Client.unregister]
  split <;> rfl

theorem Client.unregister_waiting (c : Client) (ns : String) :
    (c.unregister ns)._waiting = c._waiting := by
  simp only [Client.unregister]
  split <;> rfl

theorem Client.apply_messageId_allocates (c : Client) (op : Client.Op)
    (hop : op.allocates = true) : (c.apply op)._messageId = increment c._messageId := by
  cases op with
  | call ns data => simp [Client.apply, Client.call, Client.sendMessage_messageId]
  | signal ns data => simp [Client.apply, Client.signal, Client.sendMessage_messageId]
  | _ => simp [Client.Op.allocates] at hop

theorem Client.apply_messageId_le (c : Client) (op : Client.Op) :
    c._messageId ≤ (c.apply op)._messageId := by
  cases op with
  | call ns data =>
    simp only [Client.apply, Client.call, Client.sendMessage_messageId]
    exact le_increment _
  | signal ns data =>
    simp only [Client.apply, Client.signal, Client.sendMessage_messageId]
    exact le_increment _
  | register ns func => exact Nat.le_refl _
  | unregister ns => simp [Client.apply, Client.unregister_messageId]
  | message text => exact Client.handleMessage_messageId_le c text
  | expire t => simp [Client.apply, Client.expire_messageId]

theorem Client.apply_messageId_eq (c : Client) (op : Client.Op)
    (hop : op.allocates = false) (hid : op.carriesId = true) :
    (c.apply op)._messageId = c._messageId := by
  cases op with
  | call ns data => simp [Client.Op.allocates] at hop
  | signal ns data => simp [Client.Op.allocates] at hop
  | register ns func => rfl
  | unregister ns => simp [Client.apply, Client.unregister_messageId]
  | message text => exact Client.handleMessage_messageId_eq c text hid
  | expire t => simp [Client.apply, Client.expire_messageId]

theorem Client.run_cons (c : Client) (op : Client.Op) (ops : List Client.Op) :
    c.run (op :: ops) = (c.apply op).run ops := rfl

theorem Client.run_messageId_le (ops : List Client.Op) :
    ∀ (c : Client), c._messageId ≤ (c.run ops)._messageId := by
  induction ops with
  | nil => exact fun c => Nat.le_refl _
  | cons op rest ih =>
    exact fun c => Nat.le_trans (Client.apply_messageId_le c op) (ih (c.apply op))

theorem Client.apply_keysBelow (c : Client) (op : Client.Op)
    (hc : ∀ p ∈ c._waiting, p.1 < c._messageId)
    (hlt : (c.apply op)._messageId < maxExactInteger) :
    ∀ p ∈ (c.apply op)._waiting, p.1 < (c.apply op)._messageId := by
  intro p hp
  have hle := Client.apply_messageId_le c op
  cases op with
  | call ns data =>
    have hmid : (c.apply (.call ns data))._messageId = increment c._messageId :=
      Client.apply_messageId_allocates c _ rfl
    rw [hmid] at hlt ⊢
    rw [increment_of_lt _ (lt_of_increment_lt _ hlt)]
    simp only [Client.apply] at hp
    rcases Client.call_waiting c ns data with h | h
    · rw [h] at hp
      exact Nat.lt_succ_of_lt (hc p hp)
    · rw [h] at hp
      simp only [Dict.set, List.mem_cons] at hp
      rcases hp with hp | hp
      · rw [hp]; exact Nat.lt_succ_self _
      · exact Nat.lt_succ_of_lt (hc p (Dict.mem_delete _ _ _ hp))
  | signal ns data =>
    simp only [Client.apply, Client.signal, Client.sendMessage_waiting] at hp
    exact Nat.lt_of_lt_of_le (hc p hp) hle
  | register ns func => exact hc p hp
  | unregister ns =>
    simp only [Client.apply, Client.unregister_waiting] at hp
    exact Nat.lt_of_lt_of_le (hc p hp) hle
  | message text =>
    exact Nat.lt_of_lt_of_le (hc p (Client.handleMessage_waiting c text p hp)) hle
  | expire t =>
    exact Nat.lt_of_lt_of_le (hc p (Client.expire_waiting c t p hp)) hle

theorem Client.run_keysBelow (ops : List Client.Op) :
    ∀ (c : Client), (∀ p ∈ c._waiting, p.1 < c._messageId) →
      (c.run ops)._messageId < maxExactInteger →
      ∀ p ∈ (c.run ops)._waiting, p.1 < (c.run ops)._messageId := by
  induction ops with
  | nil => exact fun c hc _ => hc
  | cons op rest ih =>
    intro c hc hlt
    rw [Client.run_cons] at hlt ⊢
    exact ih (c.apply op)
      (Client.apply_keysBelow c op hc
        (Nat.lt_of_le_of_lt (Client.run_messageId_le rest (c.apply op)) hlt))
      hlt

theorem Client.allocated_ge (ops : List Client.Op) :
    ∀ (c : Client), ∀ i ∈ Client.allocated c ops, c._messageId ≤ i := by
  induction ops with
  | nil => intro c i hi; simp [Client.allocated] at hi
  | cons op rest ih =>
    intro c i hi
    have hle := Client.apply_messageId_le c op
    simp only [Client.allocated] at hi
    split at hi
    · simp only [List.mem_cons] at hi
      rcases hi with hi | hi
      · rw [hi]; exact Nat.le_refl _
      · exact Nat.le_trans hle (ih _ i hi)
    · exact Nat.le_trans hle (ih _ i hi)

theorem Client.allocated_increasing (ops : List Client.Op) :
    ∀ (c : Client), (c.run ops)._messageId < maxExactInteger →
      (Client.allocated c ops).Pairwise (fun i j => i < j) := by
  induction ops with
  | nil => intro c _; simp [Client.allocated]
  | cons op rest ih =>
    intro c hlt
    rw [Client.run_cons] at hlt
    have hnext := Nat.lt_of_le_of_lt (Client.run_messageId_le rest (c.apply op)) hlt
    simp only [Client.allocated]
    split
    · rename_i hop
      rw [List.pairwise_cons]
      refine ⟨fun j hj => ?_, ih _ hlt⟩
      have h1 := Client.allocated_ge rest (c.apply op) j hj
      rw [Client.apply_messageId_allocates c op hop] at h1 hnext
      rw [increment_of_lt _ (lt_of_increment_lt _ hnext)] at h1
      exact h1
    · exact ih _ hlt

theorem Client.allocated_consecutive (ops : List Client.Op) :
    ∀ (c : Client), ops.all Client.Op.carriesId = true →
      (c.run ops)._messageId < maxExactInteger →
      Client.allocated c ops
        = List.range' c._messageId (ops.filter Client.Op.allocates).length := by
  induction ops with
  | nil => intro c _ _; simp [Client.allocated]
  | cons op rest ih =>
    intro c hall hlt
    rw [Client.run_cons] at hlt
    have hnext := Nat.lt_of_le_of_lt (Client.run_messageId_le rest (c.apply op)) hlt
    simp only [List.all_cons, Bool.and_eq_true] at hall
    simp only [Client.allocated]
    by_cases hop : op.allocates = true
    · simp only [hop, if_true, List.filter_cons_of_pos, List.length_cons, List.range'_succ]
      rw [ih _ hall.2 hlt, Client.apply_messageId_allocates c op hop]
      rw [Client.apply_messageId_allocates c op hop] at hnext
      rw [increment_of_lt _ (lt_of_increment_lt _ hnext)]
      rfl
    · have hop2 : op.allocates = false := by simpa using hop
      simp only [hop2, Bool.false_eq_true, if_false]
      rw [ih _ hall.2 hlt, Client.apply_messageId_eq c op hop2 hall.1]
      simp [List.filter, hop2]

theorem Client.sendMessage_transport (c : Client) (id : Option Value) (type : String)
    (ns : Option String) (data : Value) (response : Bool)
    (hopen : c.transport.outcomes = []) :
    (c.sendMessage id type ns data response).2.transport =
      ⟨c.transport.sent ++
        [JSON.stringify ⟨some type, ns, some (id.getD (.num c._messageId)), data, .undefined⟩],
        []⟩ := by
  obtain ⟨rf, w, mid, ⟨sent, outcomes⟩, tm, nt, np, st, inv⟩ := c
  simp only at hopen
  subst hopen
  cases id <;> cases response <;>
    simp [Client.sendMessage, Client.messageId, Transport.send, Client.entryKey]
  all_goals (split <;> rfl)

theorem callIds_append (sent : List Text) (text : Text) :
    callIds (sent ++ [text]) = callIds sent ++ (Text.callId text).toList := by
  cases h : Text.callId text <;> simp [callIds, List.filterMap_append, h]

theorem Client.reply_transport (c : Client) (id : Option Value) (data : Value)
    (hopen : c.transport.outcomes = []) :
    (c.sendMessage id "r" none data false).2.transport.outcomes = [] ∧
    callIds (c.sendMessage id "r" none data false).2.transport.sent
      = callIds c.transport.sent := by
  rw [Client.sendMessage_transport _ _ _ _ _ _ hopen]
  refine ⟨rfl, ?_⟩
  simp only
  rw [callIds_append]
  simp [JSON.stringify, Text.callId]

theorem Client.handleMessage_transport (c : Client) (text : Text)
    (hopen : c.transport.outcomes = []) :
    (c.handleMessage text).2.transport.outcomes = [] ∧
    callIds (c.handleMessage text).2.transport.sent = callIds c.transport.sent := by
  simp only [Client.handleMessage]
  repeat' split
  all_goals first
    | exact ⟨hopen, rfl⟩
    | exact Client.reply_transport _ _ _ hopen

theorem Client.allocating_transport (c : Client) (ns : String) (data : List Value)
    (response : Bool) (hopen : c.transport.outcomes = []) :
    (c.sendMessage none "c" (some ns) (.arr data) response).2.transport.outcomes = [] ∧
    callIds (c.sendMessage none "c" (some ns) (.arr data) response).2.transport.sent
      = callIds c.transport.sent ++ [Value.num c._messageId] := by
  rw [Client.sendMessage_transport _ _ _ _ _ _ hopen]
  refine ⟨rfl, ?_⟩
  simp only
  rw [callIds_append]
  simp [JSON.stringify, Text.callId]

theorem Client.apply_transport (c : Client) (op : Client.Op)
    (hopen : c.transport.outcomes = []) :
    (c.apply op).transport.outcomes = [] ∧
    callIds (c.apply op).transport.sent
      = callIds c.transport.sent ++
          (if op.allocates then [Value.num c._messageId] else []) := by
  cases op with
  | call ns data => exact Client.allocating_transport c ns data true hopen
  | signal ns data => exact Client.allocating_transport c ns data false hopen
  | register ns func => exact ⟨hopen, by simp [Client.apply, Client.register,
      Client.Op.allocates]⟩
  | unregister ns =>
    simp only [Client.apply, Client.unregister, Client.Op.allocates]
    split <;> exact ⟨hopen, by simp⟩
  | message text =>
    have h := Client.handleMessage_transport c text hopen
    exact ⟨h.1, by simp [Client.apply, Client.Op.allocates, h.2]⟩
  | expire t =>
    simp only [Client.apply, Client.expire, Client.timeoutCallback, Client.Op.allocates]
    split <;> exact ⟨hopen, by simp⟩

theorem Client.run_callIds (ops : List Client.Op) :
    ∀ (c : Client), c.transport.outcomes = [] →
      callIds (c.run ops).transport.sent
        = callIds c.transport.sent ++
            (Client.allocated c ops).map (fun n : Nat => Value.num n) := by
  induction ops with
  | nil => intro c _; simp [Client.run, Client.allocated]
  | cons op rest ih =>
    intro c hopen
    have h := Client.apply_transport c op hopen
    rw [Client.run_cons, ih _ h.1, h.2]
    simp only [Client.allocated, Client.messageId]
    split <;> simp

theorem Client.sendMessage_sent (c : Client) (id : Option Value) (type : String)
    (ns : Option String) (data : Value) (response : Bool) :
    (c.sendMessage id type ns data response).2.transport.sent = c.transport.sent ∨
    (c.sendMessage id type ns data response).2.transport.sent =
      c.transport.sent ++
        [JSON.stringify ⟨some type, ns, some (id.getD (.num c._messageId)), data, .undefined⟩] := by
  obtain ⟨rf, w, mid, ⟨sent, outcomes⟩, tm, nt, np, st, inv⟩ := c
  match outcomes with
  | [] =>
    right
    cases id <;> cases response <;>
      simp [Client.sendMessage, Client.messageId, Transport.send, Client.entryKey]
    all_goals (split <;> rfl)
  | none :: rest =>
    right
    cases id <;> cases response <;>
      simp [Client.sendMessage, Client.messageId, Transport.send, Client.entryKey]
    all_goals (split <;> rfl)
  | some e :: rest =>
    left
    cases id <;> simp [Client.sendMessage, Client.messageId, Transport.send]

theorem Client.reply_sent (c : Client) (id : Option Value) (data : Value) :
    callIds (c.sendMessage id "r" none data false).2.transport.sent
      = callIds c.transport.sent := by
  rcases Client.sendMessage_sent c id "r" none data false with h | h
  · rw [h]
  · rw [h, callIds_append]
    simp [JSON.stringify, Text.callId]

theorem Client.handleMessage_sent (c : Client) (text : Text) :
    callIds (c.handleMessage text).2.transport.sent = callIds c.transport.sent := by
  simp only [Client.handleMessage]
  repeat' split
  all_goals first
    | rfl
    | exact Client.reply_sent _ _ _

theorem Client.allocating_sent (c : Client) (ns : String) (data : List Value)
    (response : Bool) :
    ∃ ids : List Nat,
      callIds (c.sendMessage none "c" (some ns) (.arr data) response).2.transport.sent
        = callIds c.transport.sent ++ ids.map (fun n : Nat => Value.num n) ∧
      ids.Sublist [c._messageId] := by
  rcases Client.sendMessage_sent c none "c" (some ns) (.arr data) response with h | h
  · exact ⟨[], by rw [h]; simp, List.nil_sublist _⟩
  · refine ⟨[c._messageId], ?_, List.Sublist.refl _⟩
    rw [h, callIds_append]
    simp [JSON.stringify, Text.callId]

theorem Client.apply_sent (c : Client) (op : Client.Op) :
    ∃ ids : List Nat,
      callIds (c.apply op).transport.sent
        = callIds c.transport.sent ++ ids.map (fun n : Nat => Value.num n) ∧
      ids.Sublist (if op.allocates then [c._messageId] else []) := by
  cases op with
  | call ns data => exact Client.allocating_sent c ns data true
  | signal ns data => exact Client.allocating_sent c ns data false
  | register ns func =>
    exact ⟨[], by simp [Client.apply, Client.register], List.nil_sublist _⟩
  | unregister ns =>
    refine ⟨[], ?_, List.nil_sublist _⟩
    simp only [Client.apply, Client.unregister]
    split <;> simp
  | message text =>
    exact ⟨[], by simp [Client.apply, Client.handleMessage_sent], List.nil_sublist _⟩
  | expire t =>
    refine ⟨[], ?_, List.nil_sublist _⟩
    simp only [Client.apply, Client.expire, Client.timeoutCallback]
    split <;> simp

theorem Client.run_sent (ops : List Client.Op) :
    ∀ (c : Client), ∃ ids : List Nat,
      callIds (c.run ops).transport.sent
        = callIds c.transport.sent ++ ids.map (fun n : Nat => Value.num n) ∧
      ids.Sublist (Client.allocated c ops) := by
  induction ops with
  | nil => exact fun c => ⟨[], by simp [Client.run], List.nil_sublist _⟩
  | cons op rest ih =>
    intro c
    obtain ⟨first, hfirst, hsub⟩ := Client.apply_sent c op
    obtain ⟨later, hlater, hsub2⟩ := ih (c.apply op)
    refine ⟨first ++ later, ?_, ?_⟩
    · rw [Client.run_cons, hlater, hfirst]
      simp
    · simp only [Client.allocated, Client.messageId]
      split
      · rename_i hop
        simp only [hop, if_true] at hsub
        exact List.Sublist.append hsub hsub2
      · rename_i hop
        simp only [hop] at hsub
        rw [List.sublist_nil.mp hsub]
        exact hsub2

theorem Dict.mem_of_get {κ α : Type} [BEq κ] [LawfulBEq κ] (o : List (κ × α)) (k : κ) (v : α)
    (h : Dict.get o k = some v) : (k, v) ∈ o := by
  induction o with
  | nil => simp [Dict.get] at h
  | cons p rest ih =>
    obtain ⟨a, b⟩ := p
    simp only [Dict.get, List.lookup] at h ih
    by_cases hka : k = a
    · subst hka
      simp at h
      simp [h]
    · have h2 : (k == a) = false := by simpa using hka
      simp only [h2] at h
      exact List.mem_cons_of_mem _ (ih h)

/-- C18, counterexample. First, a client with a handler `f` issues a call, then
answers an inbound call of `f` that carries no id, then issues a second call: the
response takes the id 1 from the counter, so the two call frames carry the ids 0 and
2, not 0 and 1. Second, a client whose counter has reached 2^53 issues two calls: the
counter, a double, no longer increases, both call frames carry the id 2^53, and the
second call overwrites the entry of the first, which is still pending. -/
theorem Client.ids_skip_and_repeat :
    callIds (Client.run (Client.fresh [("f", constant (.num 1))])
        [.call "g" [], .message (idlessCallFrame "f" []), .call "g" []]).transport.sent
      = [0, 2] ∧
    (Client.run (Client.fresh [("f", constant (.num 1))])
        [.call "g" [], .message (idlessCallFrame "f" []), .call "g" []]).transport.sent
      = [callFrame 0 "g" [], responseFrame 1 (.num 1), callFrame 2 "g" []] ∧
    callIds (Client.run Client.saturated [.call "f" [], .call "g" []]).transport.sent
      = [9007199254740992, 9007199254740992] ∧
    (Client.run Client.saturated [.call "f" []])._waiting
      = [(9007199254740992, ⟨0, 0⟩)] ∧
    (Client.run Client.saturated [.call "f" [], .call "g" []])._waiting
      = [(9007199254740992, ⟨1, 1⟩)] := by
  decide

/-- C18, amended. On a client, `messageId()` returns the counter and then increments
it, which adds 1 as long as the counter is below 2^53, and handling an inbound message
other than a call envelope without id leaves the counter alone (a response to a call
that carries an id consumes none). So, starting from a new client and as long as the
counter stays below 2^53: over every list of operations `ops` in which no call
envelope without id is delivered, on a transport that accepts every frame, the ids
carried by the frames of the `call` and `signal` operations are 0, 1, 2, ... in order
of issue; over every list of operations `every` whatsoever, whichever of its frames
the transport accepts or refuses (`outcomes`), the ids carried by the call frames sent
are strictly increasing natural numbers, so two calls never carry the same id; and the
id of the next call differs from the key `k` of every pending entry, which a further
`call` leaves in place. -/
theorem Client.ids_in_order_of_issue (table : List (String × Handler))
    (ops every : List Client.Op) (outcomes : List (Option Value)) (ns : String)
    (data : List Value) (k : Nat) (entry : Pending)
    (hids : ops.all Client.Op.carriesId = true)
    (hops : (Client.run (Client.fresh table) ops)._messageId < maxExactInteger)
    (hevery : (Client.run (Client.connected table outcomes) every)._messageId
      < maxExactInteger)
    (hpending : Dict.get (Client.run (Client.connected table outcomes) every)._waiting k
      = some entry) :
    (∀ c : Client, c.messageId = (c._messageId, { c with _messageId := increment c._messageId })) ∧
    (∀ n : Nat, n < maxExactInteger → increment n = n + 1) ∧
    (∀ (c : Client) (text : Text), (Client.Op.message text).carriesId = true →
      (c.handleMessage text).2._messageId = c._messageId) ∧
    callIds (Client.run (Client.fresh table) ops).transport.sent
      = (List.range (ops.filter Client.Op.allocates).length).map (fun n : Nat => Value.num n) ∧
    (∃ ids : List Nat,
      callIds (Client.run (Client.connected table outcomes) every).transport.sent
        = ids.map (fun n : Nat => Value.num n) ∧
      ids.Pairwise (fun i j => i < j)) ∧
    k ≠ (Client.run (Client.connected table outcomes) every)._messageId ∧
    Dict.get ((Client.run (Client.connected table outcomes) every).call ns data).2._waiting k
      = some entry := by
  have hbelow := Client.run_keysBelow every (Client.connected table outcomes)
    (by intro p hp; simp [Client.connected, Client.fresh] at hp) hevery (k, entry)
    (Dict.mem_of_get _ _ _ hpending)
  have hne : k ≠ (Client.run (Client.connected table outcomes) every)._messageId :=
    Nat.ne_of_lt hbelow
  refine ⟨fun _ => rfl, increment_of_lt, Client.handleMessage_messageId_eq, ?_, ?_, hne, ?_⟩
  · rw [Client.run_callIds ops _ rfl, Client.allocated_consecutive ops _ hids hops,
      List.range_eq_range']
    rfl
  · obtain ⟨ids, hids2, hsub⟩ := Client.run_sent every (Client.connected table outcomes)
    refine ⟨ids, ?_, (Client.allocated_increasing every _ hevery).sublist hsub⟩
    rw [hids2]
    rfl
  · rcases Client.call_waiting (Client.run (Client.connected table outcomes) every) ns data
      with h | h
    · rw [h]; exact hpending
    · rw [h, Dict.get_set_other _ _ _ _ hne]; exact hpending

/-- Witness of C18 as amended: two calls and a signal around an inbound call that
carries the id 7, and, on a transport that refuses the second frame, a further call
while the call with id 0 is pending. -/
theorem Client.ids_in_order_of_issue_witness :
    callIds (Client.run (Client.fresh [])
        [.call "f" [], .signal "g" [], .message (callFrame 7 "h" []),
          .call "f" []]).transport.sent
      = [0, 1, 2] ∧
    Dict.get ((Client.run (Client.connected [] [none, some notOpen])
        [.call "f" [], .call "f" [], .call "f" []]).call "g" []).2._waiting 0
      = some ⟨0, 0⟩ :=
  ⟨(Client.ids_in_order_of_issue []
      [.call "f" [], .signal "g" [], .message (callFrame 7 "h" []), .call "f" []]
      [.call "f" [], .call "f" [], .call "f" []] [none, some notOpen] "g" [] 0 ⟨0, 0⟩
      rfl (by decide) (by decide) (by decide)).2.2.2.1,
    (Client.ids_in_order_of_issue []
      [.call "f" [], .signal "g" [], .message (callFrame 7 "h" []), .call "f" []]
      [.call "f" [], .call "f" [], .call "f" []] [none, some notOpen] "g" [] 0 ⟨0, 0⟩
      rfl (by decide) (by decide) (by decide)).2.2.2.2.2.2⟩

end SimpleRpc
